import Mathlib

/-!
# Verification of the goose-visualizer scene-synchronization core

Shallow embedding of the event-driven scene synchronization and
spatial/animation engine of the goose-visualizer repository:

* the coordinate mapper (`src/utils/IsometricUtils.ts`):
  `gridToIso`, `isoToGrid`, `calculateDepth`;
* the spatial grid (`src/core/IsometricGrid.ts`): lazily materialized
  3-D cell store, placement, walkability, depth-ordered entity listing;
* the animation engine (`src/core/BaseTheme.ts`): `createAnimation`,
  `processAnimations`;
* the protocol adapter (`src/core/MCPAdapter.ts`): canonical
  agent/task/message state and domain-event emission.

Numbers: JavaScript numeric values are modelled as exact rationals.  Where
the embedded code can divide by zero (the animation progress computation)
the model uses `JsNumber`, rationals extended with `nan` and the two
infinities, following IEEE-754 special-value rules; finite arithmetic is
modelled exactly (no claim below depends on rounding of finite doubles —
all comparisons are against 0 or 1 with values far from the threshold).
-/

namespace GooseViz

/-! ## Coordinate mapper (`src/utils/IsometricUtils.ts`) -/

/-- A 2-D screen/grid position, `Position` of `src/core/types.ts`
(the optional `z` component is carried where the code uses it). -/
structure Pos where
  x : ℚ
  y : ℚ
  deriving DecidableEq, Repr

/-- JavaScript `Math.round`: round half toward positive infinity. -/
def jsRound (q : ℚ) : ℤ := ⌊q + 1 / 2⌋

/-- Function `gridToIso` of `src/utils/IsometricUtils.ts`:
`x = (gridX - gridY) * (tileWidth / 2)`, `y = (gridX + gridY) * (tileHeight / 2)`. -/
def gridToIso (gridX gridY tileWidth tileHeight : ℚ) : Pos :=
  { x := (gridX - gridY) * (tileWidth / 2)
    y := (gridX + gridY) * (tileHeight / 2) }

/-- Function `isoToGrid` of `src/utils/IsometricUtils.ts`: the algebraic inverse of
the projection, rounded with `Math.round` componentwise. -/
def isoToGrid (screenX screenY tileWidth tileHeight : ℚ) : ℤ × ℤ :=
  ( jsRound ((screenX / (tileWidth / 2) + screenY / (tileHeight / 2)) / 2)
  , jsRound ((screenY / (tileHeight / 2) - screenX / (tileWidth / 2)) / 2) )

/-- Function `calculateDepth` of `src/utils/IsometricUtils.ts`: `gridX + gridY`. -/
def calculateDepth (gridX gridY : ℤ) : ℤ := gridX + gridY

/-! ## JavaScript numbers with IEEE-754 special values

The animation engine divides `elapsed / duration` without guarding the
denominator, so its embedding needs `NaN` and the infinities.  Finite
values are exact rationals (see the header note). -/

/-- A JavaScript number: a finite rational, `NaN`, `Infinity` or
`-Infinity`.  The sign of zero is not distinguished; the embedded code
only ever divides by a non-negative accumulated `elapsed`, for which
JavaScript produces `+0`. -/
inductive JsNumber where
  | fin (q : ℚ)
  | nan
  | inf
  | negInf
  deriving DecidableEq, Repr

namespace JsNumber

/-- IEEE addition (exact on finite values). -/
def add : JsNumber → JsNumber → JsNumber
  | fin a, fin b => fin (a + b)
  | fin _, inf => inf
  | fin _, negInf => negInf
  | inf, fin _ => inf
  | inf, inf => inf
  | inf, negInf => nan
  | negInf, fin _ => negInf
  | negInf, negInf => negInf
  | negInf, inf => nan
  | nan, _ => nan
  | _, nan => nan

/-- IEEE subtraction (exact on finite values). -/
def sub : JsNumber → JsNumber → JsNumber
  | fin a, fin b => fin (a - b)
  | fin _, inf => negInf
  | fin _, negInf => inf
  | inf, fin _ => inf
  | inf, negInf => inf
  | inf, inf => nan
  | negInf, fin _ => negInf
  | negInf, inf => negInf
  | negInf, negInf => nan
  | nan, _ => nan
  | _, nan => nan

/-- IEEE multiplication (exact on finite values); `±Infinity * 0 = NaN`. -/
def mul : JsNumber → JsNumber → JsNumber
  | fin a, fin b => fin (a * b)
  | fin a, inf => if a > 0 then inf else if a < 0 then negInf else nan
  | fin a, negInf => if a > 0 then negInf else if a < 0 then inf else nan
  | inf, fin b => if b > 0 then inf else if b < 0 then negInf else nan
  | negInf, fin b => if b > 0 then negInf else if b < 0 then inf else nan
  | inf, inf => inf
  | inf, negInf => negInf
  | negInf, inf => negInf
  | negInf, negInf => inf
  | nan, _ => nan
  | _, nan => nan

/-- IEEE division: a nonzero finite value divided by zero gives a signed
infinity, `0 / 0 = NaN` (exact on finite values otherwise). -/
def div : JsNumber → JsNumber → JsNumber
  | fin a, fin b =>
      if b = 0 then (if a > 0 then inf else if a < 0 then negInf else nan)
      else fin (a / b)
  | fin _, inf => fin 0
  | fin _, negInf => fin 0
  | inf, fin b => if b < 0 then negInf else inf
  | negInf, fin b => if b < 0 then inf else negInf
  | inf, inf => nan
  | inf, negInf => nan
  | negInf, inf => nan
  | negInf, negInf => nan
  | nan, _ => nan
  | _, nan => nan

/-- JavaScript `<=` on numbers: any comparison involving `NaN` is false. -/
def jsLe : JsNumber → JsNumber → Bool
  | fin a, fin b => a ≤ b
  | fin _, inf => true
  | fin _, negInf => false
  | inf, fin _ => false
  | inf, inf => true
  | inf, negInf => false
  | negInf, _ => true
  | nan, _ => false
  | _, nan => false

/-- JavaScript `>=` on numbers: any comparison involving `NaN` is false. -/
def jsGe (a b : JsNumber) : Bool := jsLe b a

/-- JavaScript `Math.min`: `NaN` if either argument is `NaN`. -/
def jsMin (a b : JsNumber) : JsNumber :=
  if a = nan ∨ b = nan then nan else if jsLe a b then a else b

/-- JavaScript `ToString` on a number.  Finite formatting is rendered via
the rational's own printer; the embedded code only reaches this function
with `NaN` (see `scalarAdd`), so decimal formatting fidelity is moot. -/
def jsNumToString : JsNumber → String
  | nan => "NaN"
  | inf => "Infinity"
  | negInf => "-Infinity"
  | fin q => toString q

end JsNumber

/-! ## Animation engine (`BaseTheme` of `src/core/BaseTheme.ts`) -/

/-- A JavaScript value as it can appear in an entity's scalar
presentation fields (`scale`, `rotation`, `opacity`) or in a scalar
animation track: a number, the empty object `\x7b\x7d` (what the object
spread `\x7b ...v \x7d` of a primitive number produces in
`createAnimation`), or a string (what `object + number` produces in
`processAnimations`). -/
inductive JsVal where
  | num (x : JsNumber)
  | emptyObj
  | str (s : String)
  deriving DecidableEq, Repr

namespace JsVal

/-- JavaScript `ToNumber`.  `ToNumber(\x7b\x7d)` goes through
`ToPrimitive`, yielding the string "[object Object]", which is `NaN`.
The only strings arising in this model are object/NaN concatenations,
none of which parse as a number, so strings map to `NaN`. -/
def toNumber : JsVal → JsNumber
  | num x => x
  | emptyObj => JsNumber.nan
  | str _ => JsNumber.nan

/-- The JavaScript binary `+` as used in
`(values.start as number) + m` in `processAnimations`, where `m` is the
already-computed number `(end - start) * progress`: numeric addition when
the left operand is a number, string concatenation (via `ToPrimitive` /
`ToString`) when it is an object or a string. -/
def scalarAdd : JsVal → JsNumber → JsVal
  | num a, m => num (JsNumber.add a m)
  | emptyObj, m => str ("[object Object]" ++ JsNumber.jsNumToString m)
  | str s, m => str (s ++ JsNumber.jsNumToString m)

end JsVal

/-- A position as stored on a visual entity or in a position animation
track (`Position` of `src/core/types.ts` with numeric fields that may be
`NaN`); `z` is optional. -/
structure AnimPos where
  x : JsNumber
  y : JsNumber
  z : Option JsNumber
  deriving DecidableEq, Repr

/-- An animation track, `AnimationProperty<T>` of `src/core/types.ts`.
The TS field names are `start`, `end`, `current`; `end` is a Lean keyword,
hence the `Val` suffixes. -/
structure AnimProp (α : Type) where
  startVal : α
  endVal : α
  currVal : α
  deriving DecidableEq, Repr

/-- The `properties` object of an `AnimationState`.  `processAnimations`
interpolates exactly the keys `position`, `scale`, `rotation`, `opacity`;
any other key (e.g. `color`) is iterated but never written back to the
entity, so it is not modelled. -/
structure AnimProps where
  position : Option (AnimProp AnimPos)
  scale : Option (AnimProp JsVal)
  rotation : Option (AnimProp JsVal)
  opacity : Option (AnimProp JsVal)
  deriving DecidableEq, Repr

/-- An `AnimProps` with no tracks. -/
def AnimProps.empty : AnimProps :=
  { position := none, scale := none, rotation := none, opacity := none }

/-- Structure `AnimationState` of `src/core/types.ts`.  The completion callback is
an arbitrary closure in the code; it is modelled as an opaque identifier,
and the advance step reports the identifiers of the callbacks it invokes.
(The unused `loop` flag is not modelled.) -/
structure AnimState where
  active : Bool
  duration : JsNumber
  elapsed : JsNumber
  properties : AnimProps
  onComplete : Option ℕ
  deriving DecidableEq, Repr

/-- The presentation state of a `VisualEntity` (`src/core/types.ts`) as
touched by the animation engine.  `position` is declared non-optional in
TS but `processAnimations` guards on its truthiness, hence `Option`;
`scale`/`rotation`/`opacity` can be overwritten with non-number values by
the broken scalar interpolation, hence `JsVal`.  Fields never read or
written by `BaseTheme`'s animation code (`type`, `size`, `visible`,
`zIndex`, `data`, `render`, `update`) are omitted. -/
structure ThemeEntity where
  id : String
  position : Option AnimPos
  scale : Option JsVal
  rotation : Option JsVal
  opacity : Option JsVal
  animation : Option AnimState
  deriving DecidableEq, Repr

/-- The scalar property names `createAnimation` is invoked with. -/
inductive ScalarName where
  | scale
  | rotation
  | opacity
  deriving DecidableEq, Repr

/-- Method `BaseTheme.createAnimation` (`src/core/BaseTheme.ts`), instantiated
at `T = Position`.  If the entity has no animation object one is created
inactive; then `active`, `duration`, `elapsed`, `onComplete` are set and
the `position` track is installed.  The object spread `\x7b ...startValue \x7d`
copies a `Position` object field by field, so the stored endpoints equal
the arguments. -/
def createAnimationPos (e : ThemeEntity) (startV endV : AnimPos)
    (duration : JsNumber) (onComplete : Option ℕ) : ThemeEntity :=
  let a0 : AnimState :=
    match e.animation with
    | some a => a
    | none =>
        { active := false, duration := duration, elapsed := JsNumber.fin 0
          properties := AnimProps.empty, onComplete := none }
  let a1 : AnimState :=
    { a0 with
      active := true
      duration := duration
      elapsed := JsNumber.fin 0
      onComplete := onComplete
      properties :=
        { a0.properties with
          position := some { startVal := startV, endVal := endV, currVal := startV } } }
  { e with animation := some a1 }

/-- Install a scalar track into `AnimProps`. -/
def AnimProps.setScalar (ps : AnimProps) (p : ScalarName)
    (tr : AnimProp JsVal) : AnimProps :=
  match p with
  | ScalarName.scale => { ps with scale := some tr }
  | ScalarName.rotation => { ps with rotation := some tr }
  | ScalarName.opacity => { ps with opacity := some tr }

/-- Method `BaseTheme.createAnimation` instantiated at a primitive number
`T = number` (the `scale`/`rotation`/`opacity` calls).  The object spread
`\x7b ...startValue \x7d` of a primitive number produces the empty object
`\x7b\x7d`, so the stored track endpoints are `JsVal.emptyObj` and the
numeric arguments are discarded; they remain as parameters for fidelity
to the call sites. -/
def createAnimationScalar (e : ThemeEntity) (p : ScalarName)
    (startV endV : ℚ) (duration : JsNumber) (onComplete : Option ℕ) : ThemeEntity :=
  let _ := startV
  let _ := endV
  let a0 : AnimState :=
    match e.animation with
    | some a => a
    | none =>
        { active := false, duration := duration, elapsed := JsNumber.fin 0
          properties := AnimProps.empty, onComplete := none }
  let a1 : AnimState :=
    { a0 with
      active := true
      duration := duration
      elapsed := JsNumber.fin 0
      onComplete := onComplete
      properties := a0.properties.setScalar p
        { startVal := JsVal.emptyObj, endVal := JsVal.emptyObj, currVal := JsVal.emptyObj } }
  { e with animation := some a1 }

/-- Linear interpolation of one coordinate of a position track:
`start + (end - start) * progress`, in JavaScript number arithmetic. -/
def lerpNum (s e progress : JsNumber) : JsNumber :=
  JsNumber.add s (JsNumber.mul (JsNumber.sub e s) progress)

/-- Interpolation of a scalar track, the expression
`(values.start as number) + ((values.end as number) - (values.start as number)) * progress`:
`-` and `*` coerce their operands with `ToNumber`; the outer `+` is the
generic JavaScript addition (`JsVal.scalarAdd`). -/
def lerpScalar (tr : AnimProp JsVal) (progress : JsNumber) : JsVal :=
  JsVal.scalarAdd tr.startVal
    (JsNumber.mul (JsNumber.sub tr.endVal.toNumber tr.startVal.toNumber) progress)

/-- The body of `BaseTheme.processAnimations` for one entity of the
`this.entities` map: if the entity has an active animation, accumulate
`elapsed`, compute `progress = Math.min(elapsed / duration, 1)`, write the
interpolated value of every track back onto the entity's presentation
fields (the track's own `current` field is never updated by the code),
and when `progress >= 1` deactivate the animation and invoke `onComplete`.
Returns the updated entity and the list of invoked callback
identifiers. -/
def processEntity (deltaTime : JsNumber) (e : ThemeEntity) :
    ThemeEntity × List ℕ :=
  match e.animation with
  | none => (e, [])
  | some a =>
    if a.active then
      let elapsed' := JsNumber.add a.elapsed deltaTime
      let progress := JsNumber.jsMin (JsNumber.div elapsed' a.duration) (JsNumber.fin 1)
      let e1 :=
        match a.properties.position, e.position with
        | some tr, some pos =>
            { e with
              position := some
                { x := lerpNum tr.startVal.x tr.endVal.x progress
                  y := lerpNum tr.startVal.y tr.endVal.y progress
                  z :=
                    match tr.startVal.z, tr.endVal.z with
                    | some sz, some ez => some (lerpNum sz ez progress)
                    | _, _ => pos.z } }
        | _, _ => e
      let e2 :=
        match a.properties.scale with
        | some tr => { e1 with scale := some (lerpScalar tr progress) }
        | none => e1
      let e3 :=
        match a.properties.rotation with
        | some tr => { e2 with rotation := some (lerpScalar tr progress) }
        | none => e2
      let e4 :=
        match a.properties.opacity with
        | some tr => { e3 with opacity := some (lerpScalar tr progress) }
        | none => e3
      let finished := JsNumber.jsGe progress (JsNumber.fin 1)
      let a' := { a with elapsed := elapsed', active := if finished then false else true }
      let callbacks : List ℕ :=
        if finished then (match a.onComplete with | some c => [c] | none => []) else []
      ({ e4 with animation := some a' }, callbacks)
    else (e, [])

/-- Method `BaseTheme.processAnimations`: the loop over `this.entities.values()`;
callback identifiers are collected in iteration order.  (In the code a
callback runs during the loop; here callbacks are inert records, which is
faithful for the claims below, none of which involve a callback that
mutates entities.) -/
def processAnimations (deltaTime : JsNumber) :
    List ThemeEntity → List ThemeEntity × List ℕ
  | [] => ([], [])
  | e :: rest =>
      let (e', cs) := processEntity deltaTime e
      let (rest', cs') := processAnimations deltaTime rest
      (e' :: rest', cs ++ cs')

/-- Iterated advance of a single entity over a sequence of frame deltas,
collecting every callback invoked along the way. -/
def advanceMany : List JsNumber → ThemeEntity → ThemeEntity × List ℕ
  | [], e => (e, [])
  | dt :: rest, e =>
      let (e1, c1) := processEntity dt e
      let (e2, c2) := advanceMany rest e1
      (e2, c1 ++ c2)

/-! Concrete entities used as claim witnesses and counterexamples. -/

/-- A position track from `(0, 0)` to `(10, 10)`. -/
def posTrack0 : AnimProp AnimPos :=
  { startVal := { x := JsNumber.fin 0, y := JsNumber.fin 0, z := none }
    endVal := { x := JsNumber.fin 10, y := JsNumber.fin 10, z := none }
    currVal := { x := JsNumber.fin 0, y := JsNumber.fin 0, z := none } }

/-- An entity whose active animation has `duration = 0`. -/
def zeroDurEntity : ThemeEntity :=
  { id := "zeroDur", position := some { x := JsNumber.fin 0, y := JsNumber.fin 0, z := none }
    scale := none, rotation := none, opacity := none
    animation := some
      { active := true, duration := JsNumber.fin 0, elapsed := JsNumber.fin 0
        properties := { AnimProps.empty with position := some posTrack0 }
        onComplete := some 7 } }

/-- An entity whose active animation has `duration = -100`. -/
def negDurEntity : ThemeEntity :=
  { id := "negDur", position := some { x := JsNumber.fin 0, y := JsNumber.fin 0, z := none }
    scale := none, rotation := none, opacity := none
    animation := some
      { active := true, duration := JsNumber.fin (-100), elapsed := JsNumber.fin 0
        properties := { AnimProps.empty with position := some posTrack0 }
        onComplete := some 7 } }

/-- An entity whose animation has completed (deactivated, callback already
fired). -/
def doneEntity : ThemeEntity :=
  { id := "done", position := some { x := JsNumber.fin 10, y := JsNumber.fin 10, z := none }
    scale := none, rotation := none, opacity := none
    animation := some
      { active := false, duration := JsNumber.fin 500, elapsed := JsNumber.fin 600
        properties := { AnimProps.empty with position := some posTrack0 }
        onComplete := some 5 } }

/-- An entity with an in-flight position animation (elapsed 100 of 500)
and a completion callback, about to get a second animation started on
it. -/
def inflightEntity : ThemeEntity :=
  { id := "inflight", position := some { x := JsNumber.fin 0, y := JsNumber.fin 0, z := none }
    scale := none, rotation := none, opacity := none
    animation := some
      { active := true, duration := JsNumber.fin 500, elapsed := JsNumber.fin 100
        properties := { AnimProps.empty with position := some posTrack0 }
        onComplete := some 3 } }

/-! ## Spatial grid (`src/core/IsometricGrid.ts`)

The 3-D cell store `grid[x][y][z]` is a JavaScript array of arrays of
sparse arrays: assigning `grid[x][y][z]` for `z` beyond the current
length extends the z-array to length `z + 1`, leaving holes.  It is
modelled as nested `List`s with `Option GridCell` entries (a hole and an
out-of-length index both read back as "no cell"). -/

/-- Cell type tag, the `type` field of `GridCell` (`type` is a Lean
keyword, hence `ctype` below). -/
inductive CellType where
  | floor
  | wall
  | object
  | empty
  deriving DecidableEq, Repr

/-- A screen position as produced by `IsometricGrid.gridToScreen`. -/
structure ScreenPos where
  x : ℚ
  y : ℚ
  z : ℤ
  deriving DecidableEq, Repr

/-- A `VisualEntity` (`src/core/types.ts`) as the grid reads and writes
it: `placeEntity` assigns `position` and `zIndex`, `removeEntity` and
`getAllEntities` read `id` and `zIndex`.  All other fields are opaque to
the grid and omitted. -/
structure VisualEntity where
  id : String
  position : Option ScreenPos
  zIndex : Option ℤ
  deriving DecidableEq, Repr

/-- A grid cell, `GridCell` of `src/core/IsometricGrid.ts`. -/
structure GridCell where
  x : ℤ
  y : ℤ
  z : ℤ
  walkable : Bool
  entities : List VisualEntity
  ctype : CellType
  deriving DecidableEq, Repr

/-- Constructor argument `GridConfig`; `originX`/`originY` are optional. -/
structure GridConfigIn where
  width : ℤ
  height : ℤ
  tileWidth : ℚ
  tileHeight : ℚ
  originX : Option ℚ
  originY : Option ℚ
  deriving DecidableEq, Repr

/-- The stored configuration after the constructor applied
`originX: config.originX || 0` (an absent or zero origin both store 0,
which `Option.getD` reproduces exactly). -/
structure GridConfig where
  width : ℤ
  height : ℤ
  tileWidth : ℚ
  tileHeight : ℚ
  originX : ℚ
  originY : ℚ
  deriving DecidableEq, Repr

/-- Modify the element at an index of a list; out-of-range indices leave
the list unchanged (JavaScript array element update on an existing
index). -/
def modifyAt {α : Type} : List α → ℕ → (α → α) → List α
  | [], _, _ => []
  | a :: t, 0, f => f a :: t
  | a :: t, n + 1, f => a :: modifyAt t n f

/-- JavaScript sparse-array assignment `zs[n] = c`: overwrite in range,
extend with holes (`none`) up to index `n` otherwise. -/
def setPad {α : Type} : List (Option α) → ℕ → α → List (Option α)
  | [], 0, c => [some c]
  | [], n + 1, c => none :: setPad [] n c
  | _ :: t, 0, c => some c :: t
  | h :: t, n + 1, c => h :: setPad t n c

/-- The grid state: configuration plus the 3-D cell store. -/
structure IsometricGrid where
  config : GridConfig
  grid : List (List (List (Option GridCell)))
  deriving DecidableEq, Repr

/-- The default cell created by `initializeGrid` at `(x, y, 0)`. -/
def floorCell (x y : ℤ) : GridCell :=
  { x := x, y := y, z := 0, walkable := true, entities := [], ctype := CellType.floor }

/-- Method `IsometricGrid.initializeGrid`: for `x < width`, `y < height`,
a single layer `z = 0` holding a walkable floor cell.  Non-positive
`width`/`height` make the loops run zero times. -/
def initGrid (width height : ℤ) : List (List (List (Option GridCell))) :=
  (List.range width.toNat).map fun (x : ℕ) =>
    (List.range height.toNat).map fun (y : ℕ) =>
      [some (floorCell (Int.ofNat x) (Int.ofNat y))]

/-- The `IsometricGrid` constructor: stores the configuration (defaulting
the origin to 0) and builds the initial grid.  It performs no validation
and cannot fail. -/
def IsometricGrid.init (cfg : GridConfigIn) : IsometricGrid :=
  { config :=
      { width := cfg.width, height := cfg.height
        tileWidth := cfg.tileWidth, tileHeight := cfg.tileHeight
        originX := cfg.originX.getD 0, originY := cfg.originY.getD 0 }
    grid := initGrid cfg.width cfg.height }

/-- Method `IsometricGrid.isInBounds`:
`x >= 0 && x < width && y >= 0 && y < height && z >= 0`. -/
def IsometricGrid.isInBounds (g : IsometricGrid) (x y z : ℤ) : Bool :=
  decide (0 ≤ x) && decide (x < g.config.width) &&
  decide (0 ≤ y) && decide (y < g.config.height) && decide (0 ≤ z)

/-- Read one slot of a sparse z-array: a hole (`some none`) and an
out-of-length index (`none`) both read back as "no cell". -/
def cellAt (zs : List (Option GridCell)) (k : ℕ) : Option GridCell :=
  (zs[k]?).join

/-- Read `grid[xn][yn][zn]` at natural indices.  A missing x/y row would
be a runtime `TypeError` in JavaScript; it cannot occur on a
constructor-built grid for in-bounds coordinates, and the model
totalizes it to `none`. -/
def gridAt (g : IsometricGrid) (xn yn zn : ℕ) : Option GridCell :=
  ((g.grid[xn]?).bind fun xs => xs[yn]?).bind fun zs => cellAt zs zn

/-- Read access `this.grid[x][y][z]` guarded by the bounds check. -/
def IsometricGrid.lookupCell (g : IsometricGrid) (x y z : ℤ) : Option GridCell :=
  if g.isInBounds x y z then gridAt g x.toNat y.toNat z.toNat else none

/-- Write access `this.grid[x][y][z] = c`. -/
def IsometricGrid.writeCell (g : IsometricGrid) (x y z : ℤ) (c : GridCell) :
    IsometricGrid :=
  { g with
    grid := modifyAt g.grid x.toNat fun xs =>
      modifyAt xs y.toNat fun zs => setPad zs z.toNat c }

/-- The default cell `getCell` materializes lazily: walkable and `floor`
only at layer 0, `empty` and non-walkable above. -/
def freshCell (x y z : ℤ) : GridCell :=
  { x := x, y := y, z := z, walkable := decide (z = 0), entities := []
    ctype := if z = 0 then CellType.floor else CellType.empty }

/-- Method `IsometricGrid.getCell`: `none` when out of bounds; otherwise
the existing cell, or a lazily materialized `freshCell` that is stored
into the grid.  Returns the possibly-extended grid with the cell. -/
def IsometricGrid.getCell (g : IsometricGrid) (x y z : ℤ) :
    IsometricGrid × Option GridCell :=
  if g.isInBounds x y z then
    match g.lookupCell x y z with
    | some c => (g, some c)
    | none =>
      match (g.grid[x.toNat]?).bind (fun xs => xs[y.toNat]?) with
      | some _ => (g.writeCell x y z (freshCell x y z), some (freshCell x y z))
      | none => (g, none)
  else (g, none)

/-- Method `IsometricGrid.gridToScreen`: isometric projection plus origin
offset and elevation shift `z * tileHeight / 2`. -/
def IsometricGrid.gridToScreen (g : IsometricGrid) (x y z : ℤ) : ScreenPos :=
  let isoPos := gridToIso (x : ℚ) (y : ℚ) g.config.tileWidth g.config.tileHeight
  { x := isoPos.x + g.config.originX
    y := isoPos.y + g.config.originY - ((z : ℚ) * g.config.tileHeight / 2)
    z := z }

/-- Method `IsometricGrid.screenToGrid`: remove the origin offset, then
invert the projection. -/
def IsometricGrid.screenToGrid (g : IsometricGrid) (x y : ℚ) : ℤ × ℤ :=
  isoToGrid (x - g.config.originX) (y - g.config.originY)
    g.config.tileWidth g.config.tileHeight

/-- Method `IsometricGrid.placeEntity`: `false` when the cell cannot be
obtained; otherwise set the entity's screen position and depth key
`calculateDepth(x, y) + z * 100` and append it to the cell. -/
def IsometricGrid.placeEntity (g : IsometricGrid) (e : VisualEntity) (x y z : ℤ) :
    IsometricGrid × Bool :=
  match g.getCell x y z with
  | (g1, none) => (g1, false)
  | (g1, some cell) =>
      let e' : VisualEntity :=
        { e with
          position := some (g.gridToScreen x y z)
          zIndex := some (calculateDepth x y + z * 100) }
      (g1.writeCell x y z { cell with entities := cell.entities ++ [e'] }, true)

/-- Method `IsometricGrid.setWalkable`. -/
def IsometricGrid.setWalkable (g : IsometricGrid) (x y z : ℤ) (w : Bool) :
    IsometricGrid :=
  match g.getCell x y z with
  | (g1, none) => g1
  | (g1, some c) => g1.writeCell x y z { c with walkable := w }

/-- Method `IsometricGrid.setCellType`: store the type; a `wall` or
`object` type forces `walkable := false`, any other type leaves the
walkability flag unchanged. -/
def IsometricGrid.setCellType (g : IsometricGrid) (x y z : ℤ) (t : CellType) :
    IsometricGrid :=
  match g.getCell x y z with
  | (g1, none) => g1
  | (g1, some c) =>
      g1.writeCell x y z
        { c with
          ctype := t
          walkable :=
            if t = CellType.wall ∨ t = CellType.object then false else c.walkable }

/-- Method `IsometricGrid.isWalkable`: `cell ? cell.walkable : false`.
In the code `getCell` may materialize the cell as a side effect; the
materialized cell carries exactly the default walkability this function
reports, so dropping the state change is observationally faithful. -/
def IsometricGrid.isWalkable (g : IsometricGrid) (x y z : ℤ) : Bool :=
  match (g.getCell x y z).2 with
  | some c => c.walkable
  | none => false

/-- The collection loop of `IsometricGrid.getAllEntities` before sorting:
every populated cell's entities in x-major, then y, then z order (a hole
`!cell` is skipped). -/
def collectEntities (g : IsometricGrid) : List VisualEntity :=
  g.grid.flatMap fun xs =>
    xs.flatMap fun zs =>
      zs.flatMap fun oc =>
        match oc with
        | some c => c.entities
        | none => []

/-- The sort key of `getAllEntities`: the comparator is
`(a, b) => a.zIndex! - b.zIndex!`; every entity the grid stores received
a `zIndex` at placement, so the non-null assertion is modelled by a
default of 0. -/
def zKey (e : VisualEntity) : ℤ := e.zIndex.getD 0

/-- Ascending-by-`zIndex` ordering on entities. -/
def zLe (a b : VisualEntity) : Prop := zKey a ≤ zKey b

instance : DecidableRel zLe := fun _ _ => Int.decLe _ _

instance : IsTotal VisualEntity zLe := ⟨fun a b => Int.le_total (zKey a) (zKey b)⟩

instance : IsTrans VisualEntity zLe := ⟨fun _ _ _ h1 h2 => le_trans h1 h2⟩

/-- Method `IsometricGrid.getAllEntities`: collect every placed entity
and sort ascending by `zIndex`.  JavaScript's `Array.prototype.sort`
returns some permutation sorted under the comparator; insertion sort is
the model's witness of such a sort (the claims rely only on sortedness
and permutation). -/
def IsometricGrid.getAllEntities (g : IsometricGrid) : List VisualEntity :=
  List.insertionSort zLe (collectEntities g)

/-- The entity record `placeEntity` stores: the input entity with its
screen position and depth key `calculateDepth(x, y) + z * 100` filled
in. -/
def placedEntity (g : IsometricGrid) (e : VisualEntity) (x y z : ℤ) : VisualEntity :=
  { e with
    position := some (g.gridToScreen x y z)
    zIndex := some (calculateDepth x y + z * 100) }

/-- Scenario used by the depth-ordering claim: a fresh grid with entity
`a` placed at `(x1, y1, 0)` and then entity `b` at `(x2, y2, 0)`. -/
def placeTwo (cfg : GridConfigIn) (a b : VisualEntity) (x1 y1 x2 y2 : ℤ) :
    IsometricGrid :=
  (((IsometricGrid.init cfg).placeEntity a x1 y1 0).1.placeEntity b x2 y2 0).1

/-- A small valid configuration, used to witness the depth-ordering
claim. -/
def smallConfig : GridConfigIn :=
  { width := 3, height := 3, tileWidth := 64, tileHeight := 32
    originX := none, originY := none }

/-- A bare entity named "a". -/
def entityA : VisualEntity := { id := "a", position := none, zIndex := none }

/-- A bare entity named "b". -/
def entityB : VisualEntity := { id := "b", position := none, zIndex := none }

/-- A configuration with non-positive width, for C9. -/
def degenerateConfig : GridConfigIn :=
  { width := 0, height := 5, tileWidth := 64, tileHeight := 32
    originX := none, originY := none }

/-- A bare visual entity, for C9. -/
def sampleEntity : VisualEntity := { id := "e", position := none, zIndex := none }

/-! ## Protocol adapter (`MCPAdapter` of `src/core/MCPAdapter.ts`)

Canonical state (the `agents` / `tasks` maps and the `messages` array) is
modelled with insertion-ordered association lists, matching JavaScript
`Map` semantics (`set` overwrites in place or appends, `get` finds,
`delete` removes).  `Date.now()` is a parameter `now` (every call inside
one handler is modelled as the same instant) and the random message id of
`handleMessageAdded` is a parameter `freshId`.

Each handler returns the new state together with the list of emitted
domain events; every emitted event is paired with a snapshot of the
canonical state at the moment of emission, which is exactly what a
synchronous subscriber invoked by `EventEmitter.emit` observes (the
`emit` of `src/utils/EventEmitter.ts` calls handlers inline). -/

/-- Lifecycle states of an agent, `AgentState` of `src/core/types.ts`. -/
inductive MAgentState where
  | idle
  | active
  | thinking
  | working
  | waiting
  | disconnected
  deriving DecidableEq, Repr

/-- Lifecycle states of a task, `TaskState` of `src/core/types.ts`
(`in_progress` is spelled `inProgress`). -/
inductive MTaskState where
  | pending
  | assigned
  | inProgress
  | completed
  | cancelled
  deriving DecidableEq, Repr

/-- A position payload `\x7b x, y, z? \x7d` carried by moved events. -/
structure MPosition where
  x : ℚ
  y : ℚ
  z : Option ℚ
  deriving DecidableEq, Repr

/-- An agent record, `Agent` of `src/core/types.ts`. -/
structure Agent where
  id : String
  name : String
  color : String
  state : MAgentState
  position : Option MPosition
  createdAt : ℕ
  lastActive : ℕ
  deriving DecidableEq, Repr

/-- A message record, `Message` of `src/core/types.ts`. -/
structure Message where
  id : String
  senderId : String
  content : String
  timestamp : ℕ
  deriving DecidableEq, Repr

/-- A task record, `Task` of `src/core/types.ts`. -/
structure Task where
  id : String
  description : String
  state : MTaskState
  assignedTo : Option String
  createdAt : ℕ
  completedAt : Option ℕ
  deriving DecidableEq, Repr

/-- JavaScript `Map.set`: overwrite the existing key in place, else
append, preserving iteration order. -/
def mapSet {α : Type} : List (String × α) → String → α → List (String × α)
  | [], k, v => [(k, v)]
  | (k', v') :: t, k, v =>
      if k' = k then (k, v) :: t else (k', v') :: mapSet t k v

/-- JavaScript `Map.get`. -/
def mapGet {α : Type} : List (String × α) → String → Option α
  | [], _ => none
  | (k', v') :: t, k => if k' = k then some v' else mapGet t k

/-- JavaScript `Map.delete` (drops the first, hence only, binding). -/
def mapDelete {α : Type} : List (String × α) → String → List (String × α)
  | [], _ => []
  | (k', v') :: t, k => if k' = k then t else (k', v') :: mapDelete t k

/-- The canonical state owned by the adapter: the `agents` map, the
`messages` array and the `tasks` map. -/
structure AdapterState where
  agents : List (String × Agent)
  messages : List Message
  tasks : List (String × Task)
  deriving DecidableEq, Repr

/-- The domain events the message handlers emit
(`src/events/EventTypes.ts`).  Every event carries its timestamp; the
`changes` diff accompanying an `updated` event is a sub-view of the full
record already carried and is not modelled separately. -/
inductive DomainEvent where
  | agentRegistered (agent : Agent) (ts : ℕ)
  | agentLeft (agentId : String) (ts : ℕ)
  | agentStateChanged (agentId : String) (oldState newState : MAgentState) (ts : ℕ)
  | agentUpdated (agent : Agent) (ts : ℕ)
  | messageAdded (message : Message) (ts : ℕ)
  | messagesCleared (ts : ℕ)
  | taskAdded (task : Task) (ts : ℕ)
  | taskAssigned (taskId agentId : String) (ts : ℕ)
  | taskUpdated (task : Task) (ts : ℕ)
  | taskCompleted (taskId : String) (ts : ℕ)
  | agentMoved (agentId : String) (position : MPosition) (ts : ℕ)
  | taskMoved (taskId : String) (position : MPosition) (ts : ℕ)
  | systemReset (ts : ℕ)
  | custom (t : String) (ts : ℕ)
  deriving DecidableEq, Repr

/-- Is the event one of the two agent-state events emitted for a
state-affecting transition? -/
def DomainEvent.isAgentStateEvent : DomainEvent → Bool
  | DomainEvent.agentStateChanged _ _ _ _ => true
  | DomainEvent.agentUpdated _ _ => true
  | _ => false

/-- A parsed inbound protocol message, one constructor per `data.type`
the `handleMessage` dispatch recognizes, holding the payload fields the
handlers read. -/
inductive InboundMsg where
  | agentRegistered (id : String) (name color : Option String)
  | agentLeft (id : String)
  | agentWait (id : String)
  | agentMoved (agentId : String) (position : MPosition)
  | messageAdded (senderId content : String)
  | messagesCleared
  | taskAdded (id description : String)
  | taskAssigned (taskId agentId : String)
  | taskCompleted (taskId : String)
  | taskMoved (taskId : String) (position : MPosition)
  | systemReset
  | custom (t : String)
  deriving DecidableEq, Repr

/-- Emitted events, each paired with the canonical state the synchronous
subscribers observe at that emission. -/
abbrev Emitted : Type := List (DomainEvent × AdapterState)

namespace MCPAdapter

/-- Handler for `agent:registered`: last-write-wins insertion with state
`idle`, then one `registered` event.  (`data.agent.name || default`
treats the empty string as absent too; the model uses `Option`.) -/
def handleAgentRegistered (s : AdapterState) (id : String)
    (name color : Option String) (now : ℕ) : AdapterState × Emitted :=
  let agent : Agent :=
    { id := id, name := name.getD ("Agent " ++ id), color := color.getD "#007bff"
      state := MAgentState.idle, position := none, createdAt := now, lastActive := now }
  let s1 := { s with agents := mapSet s.agents id agent }
  (s1, [(DomainEvent.agentRegistered agent now, s1)])

/-- Handler for `agent:left`: delete and emit only when present. -/
def handleAgentLeft (s : AdapterState) (id : String) (now : ℕ) :
    AdapterState × Emitted :=
  match mapGet s.agents id with
  | some _ =>
      let s1 := { s with agents := mapDelete s.agents id }
      (s1, [(DomainEvent.agentLeft id now, s1)])
  | none => (s, [])

/-- Handler for `agent:wait`: transition an existing agent to `waiting`
and emit the state-changed / updated pair; no-op when absent. -/
def handleAgentWait (s : AdapterState) (id : String) (now : ℕ) :
    AdapterState × Emitted :=
  match mapGet s.agents id with
  | none => (s, [])
  | some agent =>
      let a' := { agent with state := MAgentState.waiting, lastActive := now }
      let s1 := { s with agents := mapSet s.agents id a' }
      (s1,
        [(DomainEvent.agentStateChanged id agent.state MAgentState.waiting now, s1),
         (DomainEvent.agentUpdated a' now, s1)])

/-- Handler for `message:added`: append the message, then (when the
sender exists) set the sender `active` and emit its state pair, and
finally emit `message:added`. -/
def handleMessageAdded (s : AdapterState) (senderId content : String)
    (now : ℕ) (freshId : String) : AdapterState × Emitted :=
  let message : Message :=
    { id := freshId, senderId := senderId, content := content, timestamp := now }
  let s1 := { s with messages := s.messages ++ [message] }
  match mapGet s1.agents senderId with
  | some agent =>
      let a' := { agent with state := MAgentState.active, lastActive := now }
      let s2 := { s1 with agents := mapSet s1.agents senderId a' }
      (s2,
        [(DomainEvent.agentStateChanged senderId agent.state MAgentState.active now, s2),
         (DomainEvent.agentUpdated a' now, s2),
         (DomainEvent.messageAdded message now, s2)])
  | none => (s1, [(DomainEvent.messageAdded message now, s1)])

/-- Handler for `message:cleared`: empty the history, emit one `cleared`
event. -/
def handleMessagesCleared (s : AdapterState) (now : ℕ) :
    AdapterState × Emitted :=
  let s1 := { s with messages := [] }
  (s1, [(DomainEvent.messagesCleared now, s1)])

/-- Handler for `task:added`: insert with state `pending`, emit
`task:added`. -/
def handleTaskAdded (s : AdapterState) (id description : String) (now : ℕ) :
    AdapterState × Emitted :=
  let task : Task :=
    { id := id, description := description, state := MTaskState.pending
      assignedTo := none, createdAt := now, completedAt := none }
  let s1 := { s with tasks := mapSet s.tasks id task }
  (s1, [(DomainEvent.taskAdded task now, s1)])

/-- Handler for `task:assigned`: when the task exists, mark it assigned
and emit the task pair; only then, when the assignee exists, set it
`working` and emit the agent pair.  No-op when the task is absent. -/
def handleTaskAssigned (s : AdapterState) (taskId agentId : String) (now : ℕ) :
    AdapterState × Emitted :=
  match mapGet s.tasks taskId with
  | none => (s, [])
  | some task =>
      let t' := { task with state := MTaskState.assigned, assignedTo := some agentId }
      let s1 := { s with tasks := mapSet s.tasks taskId t' }
      let taskEvents : Emitted :=
        [(DomainEvent.taskAssigned taskId agentId now, s1),
         (DomainEvent.taskUpdated t' now, s1)]
      match mapGet s1.agents agentId with
      | none => (s1, taskEvents)
      | some agent =>
          let a' := { agent with state := MAgentState.working, lastActive := now }
          let s2 := { s1 with agents := mapSet s1.agents agentId a' }
          (s2, taskEvents ++
            [(DomainEvent.agentStateChanged agentId agent.state MAgentState.working now, s2),
             (DomainEvent.agentUpdated a' now, s2)])

/-- Handler for `task:completed`: when the task exists, mark it completed
and emit the task pair; then, when it had an assignee that exists, reset
the assignee to `idle` and emit the agent pair. -/
def handleTaskCompleted (s : AdapterState) (taskId : String) (now : ℕ) :
    AdapterState × Emitted :=
  match mapGet s.tasks taskId with
  | none => (s, [])
  | some task =>
      let t' := { task with state := MTaskState.completed, completedAt := some now }
      let s1 := { s with tasks := mapSet s.tasks taskId t' }
      let taskEvents : Emitted :=
        [(DomainEvent.taskCompleted taskId now, s1),
         (DomainEvent.taskUpdated t' now, s1)]
      match task.assignedTo with
      | none => (s1, taskEvents)
      | some aid =>
          match mapGet s1.agents aid with
          | none => (s1, taskEvents)
          | some agent =>
              let a' := { agent with state := MAgentState.idle, lastActive := now }
              let s2 := { s1 with agents := mapSet s1.agents aid a' }
              (s2, taskEvents ++
                [(DomainEvent.agentStateChanged aid agent.state MAgentState.idle now, s2),
                 (DomainEvent.agentUpdated a' now, s2)])

/-- Handler for `agent:moved`: only when the agent exists, store the
position (lifecycle state untouched) and emit `agent:updated` then the
verbatim `agent:moved`. -/
def handleAgentMoved (s : AdapterState) (agentId : String) (position : MPosition)
    (now : ℕ) : AdapterState × Emitted :=
  match mapGet s.agents agentId with
  | none => (s, [])
  | some agent =>
      let a' := { agent with position := some position, lastActive := now }
      let s1 := { s with agents := mapSet s.agents agentId a' }
      (s1,
        [(DomainEvent.agentUpdated a' now, s1),
         (DomainEvent.agentMoved agentId position now, s1)])

/-- Handler for `task:moved`: only when the task exists, re-store the
unchanged task record and emit `task:updated` then the verbatim
`task:moved` (the `Task` record has no position field; the position only
travels in the events). -/
def handleTaskMoved (s : AdapterState) (taskId : String) (position : MPosition)
    (now : ℕ) : AdapterState × Emitted :=
  match mapGet s.tasks taskId with
  | none => (s, [])
  | some task =>
      let s1 := { s with tasks := mapSet s.tasks taskId task }
      (s1,
        [(DomainEvent.taskUpdated task now, s1),
         (DomainEvent.taskMoved taskId position now, s1)])

/-- Handler for `system:reset`: clear everything, emit one reset event. -/
def handleSystemReset (_s : AdapterState) (now : ℕ) : AdapterState × Emitted :=
  let s1 : AdapterState := { agents := [], messages := [], tasks := [] }
  (s1, [(DomainEvent.systemReset now, s1)])

/-- Method `MCPAdapter.handleMessage`: the dispatch over `data.type`.
Unrecognized types are forwarded verbatim as passthrough events.  (The
`JSON.parse` failure path logs and drops the message; it is outside the
parsed-message model.) -/
def handleMessage (s : AdapterState) (m : InboundMsg) (now : ℕ)
    (freshId : String) : AdapterState × Emitted :=
  match m with
  | InboundMsg.agentRegistered id name color => handleAgentRegistered s id name color now
  | InboundMsg.agentLeft id => handleAgentLeft s id now
  | InboundMsg.agentWait id => handleAgentWait s id now
  | InboundMsg.agentMoved aid p => handleAgentMoved s aid p now
  | InboundMsg.messageAdded sender content => handleMessageAdded s sender content now freshId
  | InboundMsg.messagesCleared => handleMessagesCleared s now
  | InboundMsg.taskAdded id description => handleTaskAdded s id description now
  | InboundMsg.taskAssigned tid aid => handleTaskAssigned s tid aid now
  | InboundMsg.taskCompleted tid => handleTaskCompleted s tid now
  | InboundMsg.taskMoved tid p => handleTaskMoved s tid p now
  | InboundMsg.systemReset => handleSystemReset s now
  | InboundMsg.custom t => (s, [(DomainEvent.custom t now, s)])

end MCPAdapter

/-! Concrete adapter states for counterexamples and witnesses. -/

/-- An idle agent "a1". -/
def idleAgent : Agent :=
  { id := "a1", name := "Agent a1", color := "#007bff"
    state := MAgentState.idle, position := none, createdAt := 0, lastActive := 0 }

/-- A pending task "t1". -/
def pendingTask : Task :=
  { id := "t1", description := "demo", state := MTaskState.pending
    assignedTo := none, createdAt := 0, completedAt := none }

/-- Canonical state holding the idle agent and the pending task. -/
def c1State : AdapterState :=
  { agents := [("a1", idleAgent)], messages := [], tasks := [("t1", pendingTask)] }

/-- The empty canonical state. -/
def emptyState : AdapterState := { agents := [], messages := [], tasks := [] }

/-- A sample position payload. -/
def pos0 : MPosition := { x := 1, y := 2, z := none }

/-- The task "t1" after assignment to "a1". -/
def c1AssignedTask : Task :=
  { pendingTask with state := MTaskState.assigned, assignedTo := some "a1" }

/-- The agent "a1" after the `working` transition at time 100. -/
def c1WorkingAgent : Agent :=
  { idleAgent with state := MAgentState.working, lastActive := 100 }

/-- The canonical state after `task:assigned` fully processed on
`c1State` at time 100. -/
def c1Snapshot : AdapterState :=
  { agents := [("a1", c1WorkingAgent)], messages := []
    tasks := [("t1", c1AssignedTask)] }

/-- The `agent:stateChanged` emission of that processing, with its
snapshot. -/
def c1AgentPair : DomainEvent × AdapterState :=
  (DomainEvent.agentStateChanged "a1" MAgentState.idle MAgentState.working 100,
    c1Snapshot)

end GooseViz

/-! Claim theorems for the coordinate mapper. -/

theorem GooseViz.jsRound_intCast (n : ℤ) : GooseViz.jsRound (n : ℚ) = n := by
  unfold GooseViz.jsRound
  rw [Int.floor_eq_iff]
  constructor
  · linarith
  · linarith

/-- **C5.** For all integer grid coordinates `(gx, gy)` and positive tile
dimensions `tw, th`, converting to screen coordinates with `gridToIso` and
back with `isoToGrid` (which rounds to the nearest integer cell) returns
exactly `(gx, gy)`. -/
theorem C5_gridToIso_isoToGrid_roundtrip (gx gy : ℤ) (tw th : ℚ)
    (htw : 0 < tw) (hth : 0 < th) :
    GooseViz.isoToGrid (GooseViz.gridToIso gx gy tw th).x
      (GooseViz.gridToIso gx gy tw th).y tw th = (gx, gy) := by
  have htw' : tw ≠ 0 := ne_of_gt htw
  have hth' : th ≠ 0 := ne_of_gt hth
  unfold GooseViz.isoToGrid GooseViz.gridToIso
  have h1 : (((gx : ℚ) - gy) * (tw / 2) / (tw / 2) + ((gx : ℚ) + gy) * (th / 2) / (th / 2)) / 2
      = (gx : ℚ) := by
    field_simp
  have h2 : (((gx : ℚ) + gy) * (th / 2) / (th / 2) - ((gx : ℚ) - gy) * (tw / 2) / (tw / 2)) / 2
      = (gy : ℚ) := by
    field_simp
  simp only [h1, h2, GooseViz.jsRound_intCast]

/-- Witness for C5 at a concrete input. -/
theorem C5_gridToIso_isoToGrid_roundtrip_witness :
    (0 : ℚ) < 64 ∧ (0 : ℚ) < 32 ∧
      GooseViz.isoToGrid (GooseViz.gridToIso 3 (-2) 64 32).x
        (GooseViz.gridToIso 3 (-2) 64 32).y 64 32 = (3, -2) :=
  ⟨by norm_num, by norm_num,
    C5_gridToIso_isoToGrid_roundtrip 3 (-2) 64 32 (by norm_num) (by norm_num)⟩

/-! Helper lemmas for the animation engine. -/

theorem GooseViz.processEntity_inactive (dt : GooseViz.JsNumber)
    (e : GooseViz.ThemeEntity) (a : GooseViz.AnimState)
    (h1 : e.animation = some a) (h2 : a.active = false) :
    GooseViz.processEntity dt e = (e, []) := by
  unfold GooseViz.processEntity
  rw [h1]
  simp [h2]

theorem GooseViz.processEntity_onComplete (dt : GooseViz.JsNumber)
    (e : GooseViz.ThemeEntity) (a : GooseViz.AnimState)
    (h : e.animation = some a) :
    ∃ a', (GooseViz.processEntity dt e).1.animation = some a' ∧
      a'.onComplete = a.onComplete := by
  unfold GooseViz.processEntity
  rw [h]
  by_cases hb : a.active
  · simp only [hb, if_true]
    exact ⟨_, rfl, rfl⟩
  · simp only [hb, if_false]
    exact ⟨a, h, rfl⟩

theorem GooseViz.processEntity_callbacks (dt : GooseViz.JsNumber)
    (e : GooseViz.ThemeEntity) (a : GooseViz.AnimState)
    (h : e.animation = some a) :
    ∀ c ∈ (GooseViz.processEntity dt e).2, a.onComplete = some c := by
  unfold GooseViz.processEntity
  rw [h]
  by_cases hb : a.active
  · simp only [hb, if_true]
    intro c hc
    by_cases hf : GooseViz.JsNumber.jsGe
        (GooseViz.JsNumber.jsMin
          (GooseViz.JsNumber.div (GooseViz.JsNumber.add a.elapsed dt) a.duration)
          (GooseViz.JsNumber.fin 1)) (GooseViz.JsNumber.fin 1)
    · simp only [hf, if_true] at hc
      cases hoc : a.onComplete with
      | some c0 => rw [hoc] at hc; simp at hc; rw [hc]
      | none => rw [hoc] at hc; simp at hc
    · simp only [hf, if_false] at hc
      simp at hc
  · simp only [hb, if_false]
    intro c hc
    simp at hc

theorem GooseViz.advanceMany_callbacks (dts : List GooseViz.JsNumber)
    (e : GooseViz.ThemeEntity) (a : GooseViz.AnimState)
    (h : e.animation = some a) :
    ∀ c ∈ (GooseViz.advanceMany dts e).2, a.onComplete = some c := by
  induction dts generalizing e a with
  | nil =>
      intro c hc
      simp [GooseViz.advanceMany] at hc
  | cons dt rest ih =>
      intro c hc
      obtain ⟨a', ha', hoc⟩ := GooseViz.processEntity_onComplete dt e a h
      simp only [GooseViz.advanceMany] at hc
      rw [List.mem_append] at hc
      cases hc with
      | inl h1 => exact GooseViz.processEntity_callbacks dt e a h c h1
      | inr h2 => rw [← hoc]; exact ih _ _ ha' c h2

/-! Claim theorems for the animation engine. -/

/-- **C3** (code bug evidence).  The claim says an active animation with
`duration <= 0` completes on the next advance with `progress = 1` and no
division by zero.  The code instead computes
`progress = Math.min(elapsed / duration, 1)`: with `duration = 0` and
`deltaTime = 0` this is `0 / 0 = NaN`, the animation stays active, no
completion callback fires, and the interpolated position becomes `NaN`;
with `duration = -100` and `deltaTime = 16` progress is negative and the
animation likewise neither deactivates nor fires its callback. -/
theorem C3_nonpositive_duration_does_not_complete :
    ((GooseViz.processEntity (GooseViz.JsNumber.fin 0) GooseViz.zeroDurEntity).1.animation.map
        (fun a => a.active) = some true) ∧
    (GooseViz.processEntity (GooseViz.JsNumber.fin 0) GooseViz.zeroDurEntity).2 = [] ∧
    ((GooseViz.processEntity (GooseViz.JsNumber.fin 0) GooseViz.zeroDurEntity).1.position.map
        (fun p => p.x) = some GooseViz.JsNumber.nan) ∧
    ((GooseViz.processEntity (GooseViz.JsNumber.fin 16) GooseViz.negDurEntity).1.animation.map
        (fun a => a.active) = some true) ∧
    (GooseViz.processEntity (GooseViz.JsNumber.fin 16) GooseViz.negDurEntity).2 = [] := by
  with_unfolding_all exact ⟨rfl, rfl, rfl, rfl, rfl⟩

/-- **C4.**  After an entity's animation has completed (the animation is
marked inactive), any number of further advance calls with any frame
deltas leave the entity — in particular its position, scale, rotation and
opacity — unchanged and never invoke the completion callback again. -/
theorem C4_advance_after_completion_noop (e : GooseViz.ThemeEntity)
    (a : GooseViz.AnimState) (h1 : e.animation = some a) (h2 : a.active = false)
    (dts : List GooseViz.JsNumber) :
    GooseViz.advanceMany dts e = (e, []) := by
  induction dts with
  | nil => rfl
  | cons dt rest ih =>
      simp [GooseViz.advanceMany, GooseViz.processEntity_inactive dt e a h1 h2, ih]

/-- Witness for C4: a concretely completed entity advanced twice more. -/
theorem C4_advance_after_completion_noop_witness :
    GooseViz.doneEntity.animation.map (fun a => a.active) = some false ∧
    GooseViz.advanceMany [GooseViz.JsNumber.fin 16, GooseViz.JsNumber.fin 1000]
      GooseViz.doneEntity = (GooseViz.doneEntity, []) :=
  ⟨by decide,
    C4_advance_after_completion_noop GooseViz.doneEntity
      { active := false, duration := GooseViz.JsNumber.fin 500
        elapsed := GooseViz.JsNumber.fin 600
        properties := { GooseViz.AnimProps.empty with position := some GooseViz.posTrack0 }
        onComplete := some 5 }
      rfl rfl [GooseViz.JsNumber.fin 16, GooseViz.JsNumber.fin 1000]⟩

/-- **C8** (counterexample).  Starting a new animation on `inflightEntity`
(which has an in-flight `position` animation toward `(10, 10)` and
callback 3) for the `opacity` property does *not* discard the previous
animation's `position` track: the track survives in the properties map,
and the next advance (200 ms, the new duration) drives the entity's
position to the *old* track's end `(10, 10)` — the previous animation's
tracked property still influences later advance steps, refuting the claim
as stated.  (The new callback 9, not the old callback 3, fires.) -/
theorem C8_previous_track_still_influences :
    (((GooseViz.createAnimationScalar GooseViz.inflightEntity GooseViz.ScalarName.opacity
        0 1 (GooseViz.JsNumber.fin 200) (some 9)).animation.map
          (fun a => a.properties.position)) = some (some GooseViz.posTrack0)) ∧
    ((GooseViz.processEntity (GooseViz.JsNumber.fin 200)
        (GooseViz.createAnimationScalar GooseViz.inflightEntity GooseViz.ScalarName.opacity
          0 1 (GooseViz.JsNumber.fin 200) (some 9))).1.position =
      some { x := GooseViz.JsNumber.fin 10, y := GooseViz.JsNumber.fin 10, z := none }) ∧
    GooseViz.inflightEntity.position =
      some { x := GooseViz.JsNumber.fin 0, y := GooseViz.JsNumber.fin 0, z := none } ∧
    (GooseViz.processEntity (GooseViz.JsNumber.fin 200)
        (GooseViz.createAnimationScalar GooseViz.inflightEntity GooseViz.ScalarName.opacity
          0 1 (GooseViz.JsNumber.fin 200) (some 9))).2 = [9] := by
  with_unfolding_all exact ⟨rfl, rfl, rfl, rfl⟩

/-- **C8** (amended).  Starting a new animation via `createAnimation` on
an entity with an existing animation resets the timing (`elapsed = 0`),
replaces the duration and the completion callback — so the previous
animation's callback is never invoked by any later advance — and
overwrites the track of the named property, but the previous animation's
tracks for *other* property names are retained (and keep being
interpolated by later advance steps). -/
theorem C8_new_animation_resets_timing_replaces_callback
    (e : GooseViz.ThemeEntity) (a : GooseViz.AnimState) (h : e.animation = some a)
    (p : GooseViz.ScalarName) (sv ev : ℚ) (d : GooseViz.JsNumber) (cb : Option ℕ) :
    ((GooseViz.createAnimationScalar e p sv ev d cb).animation = some
      { a with
        active := true, duration := d, elapsed := GooseViz.JsNumber.fin 0
        onComplete := cb
        properties := a.properties.setScalar p
          { startVal := GooseViz.JsVal.emptyObj, endVal := GooseViz.JsVal.emptyObj
            currVal := GooseViz.JsVal.emptyObj } }) ∧
    (∀ dts c, c ∈ (GooseViz.advanceMany dts
        (GooseViz.createAnimationScalar e p sv ev d cb)).2 → cb = some c) := by
  constructor
  · unfold GooseViz.createAnimationScalar
    rw [h]
  · intro dts c hc
    refine GooseViz.advanceMany_callbacks dts _
      { a with
        active := true, duration := d, elapsed := GooseViz.JsNumber.fin 0
        onComplete := cb
        properties := a.properties.setScalar p
          { startVal := GooseViz.JsVal.emptyObj, endVal := GooseViz.JsVal.emptyObj
            currVal := GooseViz.JsVal.emptyObj } } ?_ c hc
    unfold GooseViz.createAnimationScalar
    rw [h]

/-- Witness for the amended C8 at `inflightEntity`. -/
theorem C8_new_animation_resets_timing_replaces_callback_witness :
    GooseViz.inflightEntity.animation =
      some { active := true, duration := GooseViz.JsNumber.fin 500
             elapsed := GooseViz.JsNumber.fin 100
             properties := { GooseViz.AnimProps.empty with position := some GooseViz.posTrack0 }
             onComplete := some 3 } ∧
    ((GooseViz.createAnimationScalar GooseViz.inflightEntity GooseViz.ScalarName.opacity
        0 1 (GooseViz.JsNumber.fin 200) (some 9)).animation = some
      { active := true, duration := GooseViz.JsNumber.fin 200
        elapsed := GooseViz.JsNumber.fin 0
        properties :=
          ({ GooseViz.AnimProps.empty with
              position := some GooseViz.posTrack0 }).setScalar GooseViz.ScalarName.opacity
            { startVal := GooseViz.JsVal.emptyObj, endVal := GooseViz.JsVal.emptyObj
              currVal := GooseViz.JsVal.emptyObj }
        onComplete := some 9 }) := by
  exact ⟨rfl,
    (C8_new_animation_resets_timing_replaces_callback GooseViz.inflightEntity
      { active := true, duration := GooseViz.JsNumber.fin 500
        elapsed := GooseViz.JsNumber.fin 100
        properties := { GooseViz.AnimProps.empty with position := some GooseViz.posTrack0 }
        onComplete := some 3 }
      rfl GooseViz.ScalarName.opacity 0 1 (GooseViz.JsNumber.fin 200) (some 9)).1⟩


/-! Helper lemmas for the spatial grid. -/

namespace GooseViz

theorem getElem?_modifyAt_eq {α : Type} (l : List α) (n : ℕ) (f : α → α) :
    (modifyAt l n f)[n]? = (l[n]?).map f := by
  induction l generalizing n with
  | nil => simp [modifyAt]
  | cons a t ih =>
      cases n with
      | zero => simp [modifyAt]
      | succ m =>
          simp only [modifyAt, List.getElem?_cons_succ]
          exact ih m

theorem getElem?_modifyAt_ne {α : Type} (l : List α) (n m : ℕ) (f : α → α)
    (h : m ≠ n) : (modifyAt l n f)[m]? = l[m]? := by
  induction l generalizing n m with
  | nil => simp [modifyAt]
  | cons a t ih =>
      cases n with
      | zero =>
          cases m with
          | zero => exact absurd rfl h
          | succ k => simp [modifyAt]
      | succ n' =>
          cases m with
          | zero => simp [modifyAt]
          | succ k =>
              simp only [modifyAt, List.getElem?_cons_succ]
              exact ih n' k (fun hk => h (by rw [hk]))

theorem cellAt_setPad_eq (zs : List (Option GridCell)) (n : ℕ) (c : GridCell) :
    cellAt (setPad zs n c) n = some c := by
  induction n generalizing zs with
  | zero => cases zs <;> simp [setPad, cellAt]
  | succ n' ih =>
      cases zs with
      | nil => simpa [setPad, cellAt] using ih []
      | cons hd t => simpa [setPad, cellAt] using ih t

theorem cellAt_setPad_ne (zs : List (Option GridCell)) (n m : ℕ) (c : GridCell)
    (h : m ≠ n) : cellAt (setPad zs n c) m = cellAt zs m := by
  induction n generalizing zs m with
  | zero =>
      cases m with
      | zero => exact absurd rfl h
      | succ k => cases zs <;> simp [setPad, cellAt]
  | succ n' ih =>
      cases zs with
      | nil =>
          cases m with
          | zero => simp [setPad, cellAt]
          | succ k =>
              simpa [setPad, cellAt] using ih [] k (fun hk => h (by rw [hk]))
      | cons hd t =>
          cases m with
          | zero => simp [setPad, cellAt]
          | succ k =>
              simpa [setPad, cellAt] using ih t k (fun hk => h (by rw [hk]))

theorem isInBounds_writeCell (g : IsometricGrid) (x y z x' y' z' : ℤ)
    (c : GridCell) :
    (g.writeCell x' y' z' c).isInBounds x y z = g.isInBounds x y z := rfl

/-- Decompose a successful raw read into the two row reads and the slot
read it went through. -/
theorem gridAt_some_elim (g : IsometricGrid) (xn yn zn : ℕ) (c : GridCell)
    (h : gridAt g xn yn zn = some c) :
    ∃ xs zs, g.grid[xn]? = some xs ∧ xs[yn]? = some zs ∧
      cellAt zs zn = some c := by
  unfold gridAt at h
  cases hx : g.grid[xn]? with
  | none => rw [hx] at h; simp at h
  | some xs =>
      rw [hx] at h
      simp only [Option.some_bind] at h
      cases hy : xs[yn]? with
      | none => rw [hy] at h; simp at h
      | some zs =>
          rw [hy] at h
          simp only [Option.some_bind] at h
          exact ⟨xs, zs, rfl, hy, h⟩

theorem gridAt_writeCell_eq (g : IsometricGrid) (x y z : ℤ)
    (c : GridCell) (xs : List (List (Option GridCell)))
    (zs : List (Option GridCell))
    (hx : g.grid[x.toNat]? = some xs) (hy : xs[y.toNat]? = some zs) :
    gridAt (g.writeCell x y z c) x.toNat y.toNat z.toNat = some c := by
  unfold gridAt IsometricGrid.writeCell
  rw [getElem?_modifyAt_eq, hx]
  simp only [Option.map_some', Option.some_bind]
  rw [getElem?_modifyAt_eq, hy]
  simp only [Option.map_some', Option.some_bind]
  exact cellAt_setPad_eq zs z.toNat c

theorem gridAt_writeCell_ne (g : IsometricGrid) (x' y' z' : ℤ) (c : GridCell)
    (xn yn zn : ℕ)
    (h : xn ≠ x'.toNat ∨ yn ≠ y'.toNat ∨ zn ≠ z'.toNat) :
    gridAt (g.writeCell x' y' z' c) xn yn zn = gridAt g xn yn zn := by
  unfold gridAt IsometricGrid.writeCell
  by_cases hx : xn = x'.toNat
  · rw [hx, getElem?_modifyAt_eq]
    cases hrow : g.grid[x'.toNat]? with
    | none => simp
    | some xs =>
        simp only [Option.map_some', Option.some_bind]
        by_cases hy : yn = y'.toNat
        · rw [hy, getElem?_modifyAt_eq]
          cases hrow2 : xs[y'.toNat]? with
          | none => simp
          | some zs =>
              simp only [Option.map_some', Option.some_bind]
              rcases h with hx' | hy' | hz'
              · exact absurd hx hx'
              · exact absurd hy hy'
              · exact cellAt_setPad_ne zs z'.toNat zn c hz'
        · rw [getElem?_modifyAt_ne _ _ _ _ hy]
  · rw [getElem?_modifyAt_ne _ _ _ _ hx]

theorem lookupCell_some_isInBounds (g : IsometricGrid) (x y z : ℤ)
    (c : GridCell) (h : g.lookupCell x y z = some c) :
    g.isInBounds x y z = true := by
  by_cases hb : g.isInBounds x y z
  · exact hb
  · unfold IsometricGrid.lookupCell at h
    rw [if_neg hb] at h
    simp at h

theorem getCell_of_lookup_some (g : IsometricGrid) (x y z : ℤ) (c : GridCell)
    (h : g.lookupCell x y z = some c) : g.getCell x y z = (g, some c) := by
  have hb := lookupCell_some_isInBounds g x y z c h
  unfold IsometricGrid.getCell
  rw [hb, if_pos rfl, h]

theorem lookupCell_writeCell_self (g : IsometricGrid) (x y z : ℤ)
    (c c0 : GridCell) (h : g.lookupCell x y z = some c0) :
    (g.writeCell x y z c).lookupCell x y z = some c := by
  have hb := lookupCell_some_isInBounds g x y z c0 h
  unfold IsometricGrid.lookupCell at h ⊢
  rw [hb, if_pos rfl] at h
  rw [isInBounds_writeCell, hb, if_pos rfl]
  obtain ⟨xs, zs, hx, hy, _⟩ := gridAt_some_elim g _ _ _ _ h
  exact gridAt_writeCell_eq g x y z c xs zs hx hy

end GooseViz

namespace GooseViz

theorem getCell_not_inBounds (g : IsometricGrid) (x y z : ℤ)
    (hb : g.isInBounds x y z = false) : g.getCell x y z = (g, none) := by
  unfold IsometricGrid.getCell
  rw [hb]
  simp

theorem getCell_materialize (g : IsometricGrid) (x y z : ℤ)
    (hb : g.isInBounds x y z = true) (hl : g.lookupCell x y z = none)
    (zs0 : List (Option GridCell))
    (hrow : (g.grid[x.toNat]?).bind (fun xs => xs[y.toNat]?) = some zs0) :
    g.getCell x y z =
      (g.writeCell x y z (freshCell x y z), some (freshCell x y z)) := by
  unfold IsometricGrid.getCell
  rw [hb, if_pos rfl, hl, hrow]

theorem getCell_no_row (g : IsometricGrid) (x y z : ℤ)
    (hb : g.isInBounds x y z = true) (hl : g.lookupCell x y z = none)
    (hrow : (g.grid[x.toNat]?).bind (fun xs => xs[y.toNat]?) = none) :
    g.getCell x y z = (g, none) := by
  unfold IsometricGrid.getCell
  rw [hb, if_pos rfl, hl, hrow]

/-- Walkability after `setCellType`, in terms of the cell `getCell` sees
before the write. -/
theorem isWalkable_setCellType (g : IsometricGrid) (x y z : ℤ) (t : CellType) :
    (g.setCellType x y z t).isWalkable x y z =
      match (g.getCell x y z).2 with
      | some c => if t = CellType.wall ∨ t = CellType.object then false else c.walkable
      | none => false := by
  by_cases hb : g.isInBounds x y z
  · cases hl : g.lookupCell x y z with
    | some c =>
        have hget := getCell_of_lookup_some g x y z c hl
        unfold IsometricGrid.setCellType
        rw [hget]
        have hl2 := lookupCell_writeCell_self g x y z
          { c with
            ctype := t
            walkable :=
              if t = CellType.wall ∨ t = CellType.object then false else c.walkable }
          c hl
        have hget2 := getCell_of_lookup_some _ x y z _ hl2
        unfold IsometricGrid.isWalkable
        rw [hget2]
    | none =>
        cases hrow : (g.grid[x.toNat]?).bind (fun xs => xs[y.toNat]?) with
        | some zs0 =>
            have hget := getCell_materialize g x y z hb hl zs0 hrow
            unfold IsometricGrid.setCellType
            rw [hget]
            have hl1 : (g.writeCell x y z (freshCell x y z)).lookupCell x y z =
                some (freshCell x y z) := by
              unfold IsometricGrid.lookupCell
              rw [isInBounds_writeCell, hb, if_pos rfl]
              cases hxrow : g.grid[x.toNat]? with
              | none => rw [hxrow] at hrow; simp at hrow
              | some xs =>
                  rw [hxrow] at hrow
                  simp only [Option.some_bind] at hrow
                  exact gridAt_writeCell_eq g x y z (freshCell x y z) xs zs0 hxrow hrow
            have hl2 := lookupCell_writeCell_self (g.writeCell x y z (freshCell x y z))
              x y z
              { freshCell x y z with
                ctype := t
                walkable :=
                  if t = CellType.wall ∨ t = CellType.object then false
                  else (freshCell x y z).walkable }
              (freshCell x y z) hl1
            have hget2 := getCell_of_lookup_some _ x y z _ hl2
            unfold IsometricGrid.isWalkable
            rw [hget2]
        | none =>
            have hget := getCell_no_row g x y z hb hl hrow
            unfold IsometricGrid.setCellType
            rw [hget]
            unfold IsometricGrid.isWalkable
            rw [hget]
  · have hb' : g.isInBounds x y z = false := by
      cases hh : g.isInBounds x y z with
      | false => rfl
      | true => exact absurd hh hb
    have hget := getCell_not_inBounds g x y z hb'
    unfold IsometricGrid.setCellType
    rw [hget]
    unfold IsometricGrid.isWalkable
    rw [hget]

end GooseViz

/-- **C7.**  For every cell coordinate and every prior walkability value,
after `setCellType(c, wall)` or `setCellType(c, object)` the cell is not
walkable; setting `floor` or `empty` leaves the cell's walkability
unchanged. -/
theorem C7_setCellType_walkability (g : GooseViz.IsometricGrid) (x y z : ℤ) :
    (g.setCellType x y z GooseViz.CellType.wall).isWalkable x y z = false ∧
    (g.setCellType x y z GooseViz.CellType.object).isWalkable x y z = false ∧
    (g.setCellType x y z GooseViz.CellType.floor).isWalkable x y z =
      g.isWalkable x y z ∧
    (g.setCellType x y z GooseViz.CellType.empty).isWalkable x y z =
      g.isWalkable x y z := by
  refine ⟨?_, ?_, ?_, ?_⟩
  · rw [GooseViz.isWalkable_setCellType]
    rcases (g.getCell x y z).2 with _ | c <;> simp
  · rw [GooseViz.isWalkable_setCellType]
    rcases (g.getCell x y z).2 with _ | c <;> simp
  · rw [GooseViz.isWalkable_setCellType]
    unfold GooseViz.IsometricGrid.isWalkable
    rcases (g.getCell x y z).2 with _ | c <;> simp
  · rw [GooseViz.isWalkable_setCellType]
    unfold GooseViz.IsometricGrid.isWalkable
    rcases (g.getCell x y z).2 with _ | c <;> simp

/-- **C9** (code bug evidence).  The claim says constructing the grid
with invalid configuration (non-positive width or height) fails fast with
a descriptive error.  The constructor performs no validation: with
`width = 0` it returns normally, producing a silently degenerate grid in
which every coordinate is out of bounds, `getAllEntities` is empty, and
every placement fails. -/
theorem C9_invalid_config_silently_degenerate :
    (GooseViz.IsometricGrid.init GooseViz.degenerateConfig).grid = [] ∧
    (GooseViz.IsometricGrid.init GooseViz.degenerateConfig).isInBounds 0 0 0 = false ∧
    (GooseViz.IsometricGrid.init GooseViz.degenerateConfig).getAllEntities = [] ∧
    ((GooseViz.IsometricGrid.init GooseViz.degenerateConfig).placeEntity
      GooseViz.sampleEntity 0 0 0).2 = false := by
  with_unfolding_all exact ⟨rfl, rfl, rfl, rfl⟩

namespace GooseViz

theorem lookup_some_gridAt (g : IsometricGrid) (x y z : ℤ) (c : GridCell)
    (h : g.lookupCell x y z = some c) :
    gridAt g x.toNat y.toNat z.toNat = some c := by
  unfold IsometricGrid.lookupCell at h
  by_cases hb : g.isInBounds x y z
  · rwa [if_pos hb] at h
  · rw [if_neg hb] at h; simp at h

theorem lookupCell_writeCell_other (g : IsometricGrid) (x y z x' y' z' : ℤ)
    (c : GridCell)
    (h : x.toNat ≠ x'.toNat ∨ y.toNat ≠ y'.toNat ∨ z.toNat ≠ z'.toNat) :
    (g.writeCell x' y' z' c).lookupCell x y z = g.lookupCell x y z := by
  unfold IsometricGrid.lookupCell
  rw [isInBounds_writeCell]
  by_cases hb : g.isInBounds x y z
  · rw [if_pos hb, if_pos hb]
    exact gridAt_writeCell_ne g x' y' z' c _ _ _ h
  · rw [if_neg hb, if_neg hb]

theorem lookupCell_init (cfg : GridConfigIn) (x y : ℤ)
    (hx0 : 0 ≤ x) (hxw : x < cfg.width) (hy0 : 0 ≤ y) (hyh : y < cfg.height) :
    (IsometricGrid.init cfg).lookupCell x y 0 = some (floorCell x y) := by
  have hb : (IsometricGrid.init cfg).isInBounds x y 0 = true := by
    simp [IsometricGrid.init, IsometricGrid.isInBounds, hx0, hxw, hy0, hyh]
  unfold IsometricGrid.lookupCell
  rw [hb, if_pos rfl]
  have hxn : x.toNat < cfg.width.toNat := by omega
  have hyn : y.toNat < cfg.height.toNat := by omega
  have hgrid : (IsometricGrid.init cfg).grid = initGrid cfg.width cfg.height := rfl
  unfold gridAt
  rw [hgrid]
  unfold initGrid
  rw [List.getElem?_map, List.getElem?_range hxn]
  simp only [Option.map_some', Option.some_bind]
  rw [List.getElem?_map, List.getElem?_range hyn]
  simp only [Option.map_some', Option.some_bind]
  simp [cellAt, Int.toNat_of_nonneg hx0, Int.toNat_of_nonneg hy0]

theorem mem_collectEntities (g : IsometricGrid) (xn yn zn : ℕ) (c : GridCell)
    (e : VisualEntity) (h : gridAt g xn yn zn = some c) (he : e ∈ c.entities) :
    e ∈ collectEntities g := by
  obtain ⟨xs, zs, hx, hy, hcell⟩ := gridAt_some_elim g xn yn zn c h
  have hxs : xs ∈ g.grid := by
    obtain ⟨hlt, heq⟩ := List.getElem?_eq_some_iff.mp hx
    exact heq ▸ List.getElem_mem hlt
  have hzs : zs ∈ xs := by
    obtain ⟨hlt, heq⟩ := List.getElem?_eq_some_iff.mp hy
    exact heq ▸ List.getElem_mem hlt
  have hoc : some c ∈ zs := by
    unfold cellAt at hcell
    have : zs[zn]? = some (some c) := by
      cases hj : zs[zn]? with
      | none => rw [hj] at hcell; simp at hcell
      | some oc =>
          rw [hj] at hcell
          simp at hcell
          rw [hcell]
    obtain ⟨hlt, heq⟩ := List.getElem?_eq_some_iff.mp this
    exact heq ▸ List.getElem_mem hlt
  unfold collectEntities
  rw [List.mem_flatMap]
  exact ⟨xs, hxs, by
    rw [List.mem_flatMap]
    exact ⟨zs, hzs, by
      rw [List.mem_flatMap]
      exact ⟨some c, hoc, by simpa using he⟩⟩⟩

end GooseViz

namespace GooseViz

theorem placeEntity_of_lookup (g : IsometricGrid) (e : VisualEntity)
    (x y z : ℤ) (c : GridCell) (h : g.lookupCell x y z = some c) :
    g.placeEntity e x y z =
      (g.writeCell x y z
        { c with entities := c.entities ++ [placedEntity g e x y z] }, true) := by
  unfold IsometricGrid.placeEntity
  rw [getCell_of_lookup_some g x y z c h]
  rfl

end GooseViz

/-- **C6.**  `getAllEntities` returns all placed entities sorted
ascending by their depth key (for every grid state it is a sorted
permutation of the collected cell contents); consequently, on a fresh
grid, for two entities placed at layer-0 cells `(x1, y1)` and `(x2, y2)`
with `x1 + y1 < x2 + y2`, the entity at the first cell appears before the
entity at the second cell in the returned list. -/
theorem C6_getAllEntities_depth_sorted
    (g : GooseViz.IsometricGrid) (cfg : GooseViz.GridConfigIn)
    (a b : GooseViz.VisualEntity) (x1 y1 x2 y2 : ℤ)
    (hx10 : 0 ≤ x1) (hx1w : x1 < cfg.width)
    (hy10 : 0 ≤ y1) (hy1h : y1 < cfg.height)
    (hx20 : 0 ≤ x2) (hx2w : x2 < cfg.width)
    (hy20 : 0 ≤ y2) (hy2h : y2 < cfg.height)
    (hd : x1 + y1 < x2 + y2) :
    (List.Sorted GooseViz.zLe g.getAllEntities ∧
      g.getAllEntities.Perm (GooseViz.collectEntities g)) ∧
    (((GooseViz.IsometricGrid.init cfg).placeEntity a x1 y1 0).2 = true ∧
      (((GooseViz.IsometricGrid.init cfg).placeEntity a x1 y1 0).1.placeEntity
        b x2 y2 0).2 = true ∧
      GooseViz.placedEntity (GooseViz.IsometricGrid.init cfg) a x1 y1 0 ∈
        (GooseViz.placeTwo cfg a b x1 y1 x2 y2).getAllEntities ∧
      GooseViz.placedEntity
          ((GooseViz.IsometricGrid.init cfg).placeEntity a x1 y1 0).1 b x2 y2 0 ∈
        (GooseViz.placeTwo cfg a b x1 y1 x2 y2).getAllEntities ∧
      ∀ i j : ℕ,
        ((GooseViz.placeTwo cfg a b x1 y1 x2 y2).getAllEntities)[i]? =
          some (GooseViz.placedEntity (GooseViz.IsometricGrid.init cfg) a x1 y1 0) →
        ((GooseViz.placeTwo cfg a b x1 y1 x2 y2).getAllEntities)[j]? =
          some (GooseViz.placedEntity
            ((GooseViz.IsometricGrid.init cfg).placeEntity a x1 y1 0).1 b x2 y2 0) →
        i < j) := by
  constructor
  · exact ⟨List.sorted_insertionSort GooseViz.zLe _,
      List.perm_insertionSort GooseViz.zLe _⟩
  · have hl1 : (GooseViz.IsometricGrid.init cfg).lookupCell x1 y1 0 =
        some (GooseViz.floorCell x1 y1) :=
      GooseViz.lookupCell_init cfg x1 y1 hx10 hx1w hy10 hy1h
    have hp1 := GooseViz.placeEntity_of_lookup (GooseViz.IsometricGrid.init cfg)
      a x1 y1 0 _ hl1
    have hsucc1 : ((GooseViz.IsometricGrid.init cfg).placeEntity a x1 y1 0).2 = true := by
      rw [hp1]
    have hs1 : ((GooseViz.IsometricGrid.init cfg).placeEntity a x1 y1 0).1 =
        (GooseViz.IsometricGrid.init cfg).writeCell x1 y1 0
          { GooseViz.floorCell x1 y1 with
            entities := (GooseViz.floorCell x1 y1).entities ++
              [GooseViz.placedEntity (GooseViz.IsometricGrid.init cfg) a x1 y1 0] } := by
      rw [hp1]
    have hnexy : x2.toNat ≠ x1.toNat ∨ y2.toNat ≠ y1.toNat ∨
        (0 : ℤ).toNat ≠ (0 : ℤ).toNat := by omega
    have hl2 : ((GooseViz.IsometricGrid.init cfg).placeEntity a x1 y1 0).1.lookupCell
        x2 y2 0 = some (GooseViz.floorCell x2 y2) := by
      rw [hs1, GooseViz.lookupCell_writeCell_other _ x2 y2 0 x1 y1 0 _ hnexy]
      exact GooseViz.lookupCell_init cfg x2 y2 hx20 hx2w hy20 hy2h
    have hp2 := GooseViz.placeEntity_of_lookup
      ((GooseViz.IsometricGrid.init cfg).placeEntity a x1 y1 0).1 b x2 y2 0 _ hl2
    have hsucc2 : (((GooseViz.IsometricGrid.init cfg).placeEntity a x1 y1 0).1.placeEntity
        b x2 y2 0).2 = true := by rw [hp2]
    have hs2 : GooseViz.placeTwo cfg a b x1 y1 x2 y2 =
        ((GooseViz.IsometricGrid.init cfg).placeEntity a x1 y1 0).1.writeCell x2 y2 0
          { GooseViz.floorCell x2 y2 with
            entities := (GooseViz.floorCell x2 y2).entities ++
              [GooseViz.placedEntity
                ((GooseViz.IsometricGrid.init cfg).placeEntity a x1 y1 0).1 b x2 y2 0] } := by
      unfold GooseViz.placeTwo
      rw [hp2]
    have hga2 : GooseViz.gridAt (GooseViz.placeTwo cfg a b x1 y1 x2 y2)
        x2.toNat y2.toNat (0 : ℤ).toNat =
        some { GooseViz.floorCell x2 y2 with
          entities := (GooseViz.floorCell x2 y2).entities ++
            [GooseViz.placedEntity
              ((GooseViz.IsometricGrid.init cfg).placeEntity a x1 y1 0).1 b x2 y2 0] } := by
      rw [hs2]
      exact GooseViz.lookup_some_gridAt _ x2 y2 0 _
        (GooseViz.lookupCell_writeCell_self _ x2 y2 0 _ _ hl2)
    have hga1 : GooseViz.gridAt (GooseViz.placeTwo cfg a b x1 y1 x2 y2)
        x1.toNat y1.toNat (0 : ℤ).toNat =
        some { GooseViz.floorCell x1 y1 with
          entities := (GooseViz.floorCell x1 y1).entities ++
            [GooseViz.placedEntity (GooseViz.IsometricGrid.init cfg) a x1 y1 0] } := by
      rw [hs2]
      rw [GooseViz.gridAt_writeCell_ne _ x2 y2 0 _ x1.toNat y1.toNat (0 : ℤ).toNat
        (by omega)]
      refine GooseViz.lookup_some_gridAt _ x1 y1 0 _ ?_
      rw [hs1]
      exact GooseViz.lookupCell_writeCell_self _ x1 y1 0 _ _ hl1
    have hmema : GooseViz.placedEntity (GooseViz.IsometricGrid.init cfg) a x1 y1 0 ∈
        GooseViz.collectEntities (GooseViz.placeTwo cfg a b x1 y1 x2 y2) :=
      GooseViz.mem_collectEntities _ _ _ _ _ _ hga1
        (by simp [GooseViz.floorCell])
    have hmemb : GooseViz.placedEntity
        ((GooseViz.IsometricGrid.init cfg).placeEntity a x1 y1 0).1 b x2 y2 0 ∈
        GooseViz.collectEntities (GooseViz.placeTwo cfg a b x1 y1 x2 y2) :=
      GooseViz.mem_collectEntities _ _ _ _ _ _ hga2
        (by simp [GooseViz.floorCell])
    have hmema' : GooseViz.placedEntity (GooseViz.IsometricGrid.init cfg) a x1 y1 0 ∈
        (GooseViz.placeTwo cfg a b x1 y1 x2 y2).getAllEntities := by
      unfold GooseViz.IsometricGrid.getAllEntities
      rw [List.mem_insertionSort]
      exact hmema
    have hmemb' : GooseViz.placedEntity
        ((GooseViz.IsometricGrid.init cfg).placeEntity a x1 y1 0).1 b x2 y2 0 ∈
        (GooseViz.placeTwo cfg a b x1 y1 x2 y2).getAllEntities := by
      unfold GooseViz.IsometricGrid.getAllEntities
      rw [List.mem_insertionSort]
      exact hmemb
    refine ⟨hsucc1, hsucc2, hmema', hmemb', ?_⟩
    intro i j hi hj
    have hkey : GooseViz.zKey
        (GooseViz.placedEntity (GooseViz.IsometricGrid.init cfg) a x1 y1 0) <
        GooseViz.zKey (GooseViz.placedEntity
          ((GooseViz.IsometricGrid.init cfg).placeEntity a x1 y1 0).1 b x2 y2 0) := by
      simp [GooseViz.zKey, GooseViz.placedEntity, GooseViz.calculateDepth]
      omega
    have hsort : List.Sorted GooseViz.zLe
        (GooseViz.placeTwo cfg a b x1 y1 x2 y2).getAllEntities :=
      List.sorted_insertionSort GooseViz.zLe _
    obtain ⟨hiL, hieq⟩ := List.getElem?_eq_some_iff.mp hi
    obtain ⟨hjL, hjeq⟩ := List.getElem?_eq_some_iff.mp hj
    by_contra hij
    have hji : j ≤ i := Nat.not_lt.mp hij
    rcases Nat.eq_or_lt_of_le hji with heq | hlt
    · subst heq
      rw [hieq] at hjeq
      rw [hjeq] at hkey
      exact lt_irrefl _ hkey
    · have hrel := hsort.rel_get_of_lt
        (show (⟨j, hjL⟩ : Fin _) < ⟨i, hiL⟩ from hlt)
      rw [List.get_eq_getElem, List.get_eq_getElem, hieq, hjeq] at hrel
      exact absurd hkey (not_lt.mpr hrel)

/-- Witness for C6: a 3x3 grid, entity "a" at `(0, 0)`, entity "b" at
`(1, 1)`. -/
theorem C6_getAllEntities_depth_sorted_witness :
    ((0 : ℤ) ≤ 0 ∧ (0 : ℤ) < GooseViz.smallConfig.width ∧
      (0 : ℤ) ≤ 0 ∧ (0 : ℤ) < GooseViz.smallConfig.height ∧
      (0 : ℤ) ≤ 1 ∧ (1 : ℤ) < GooseViz.smallConfig.width ∧
      (0 : ℤ) ≤ 1 ∧ (1 : ℤ) < GooseViz.smallConfig.height ∧
      (0 : ℤ) + 0 < 1 + 1) ∧
    ((List.Sorted GooseViz.zLe
        (GooseViz.IsometricGrid.init GooseViz.smallConfig).getAllEntities ∧
      (GooseViz.IsometricGrid.init GooseViz.smallConfig).getAllEntities.Perm
        (GooseViz.collectEntities (GooseViz.IsometricGrid.init GooseViz.smallConfig))) ∧
    (((GooseViz.IsometricGrid.init GooseViz.smallConfig).placeEntity
        GooseViz.entityA 0 0 0).2 = true ∧
      (((GooseViz.IsometricGrid.init GooseViz.smallConfig).placeEntity
        GooseViz.entityA 0 0 0).1.placeEntity GooseViz.entityB 1 1 0).2 = true ∧
      GooseViz.placedEntity (GooseViz.IsometricGrid.init GooseViz.smallConfig)
          GooseViz.entityA 0 0 0 ∈
        (GooseViz.placeTwo GooseViz.smallConfig GooseViz.entityA GooseViz.entityB
          0 0 1 1).getAllEntities ∧
      GooseViz.placedEntity
          ((GooseViz.IsometricGrid.init GooseViz.smallConfig).placeEntity
            GooseViz.entityA 0 0 0).1 GooseViz.entityB 1 1 0 ∈
        (GooseViz.placeTwo GooseViz.smallConfig GooseViz.entityA GooseViz.entityB
          0 0 1 1).getAllEntities ∧
      ∀ i j : ℕ,
        ((GooseViz.placeTwo GooseViz.smallConfig GooseViz.entityA GooseViz.entityB
          0 0 1 1).getAllEntities)[i]? =
          some (GooseViz.placedEntity
            (GooseViz.IsometricGrid.init GooseViz.smallConfig) GooseViz.entityA 0 0 0) →
        ((GooseViz.placeTwo GooseViz.smallConfig GooseViz.entityA GooseViz.entityB
          0 0 1 1).getAllEntities)[j]? =
          some (GooseViz.placedEntity
            ((GooseViz.IsometricGrid.init GooseViz.smallConfig).placeEntity
              GooseViz.entityA 0 0 0).1 GooseViz.entityB 1 1 0) →
        i < j)) :=
  ⟨⟨by decide, by decide, by decide, by decide, by decide, by decide, by decide,
      by decide, by decide⟩,
    C6_getAllEntities_depth_sorted
      (GooseViz.IsometricGrid.init GooseViz.smallConfig) GooseViz.smallConfig
      GooseViz.entityA GooseViz.entityB 0 0 1 1
      (by decide) (by decide) (by decide) (by decide)
      (by decide) (by decide) (by decide) (by decide) (by decide)⟩

/-! Helper lemma and claim theorems for the protocol adapter. -/

theorem GooseViz.mapGet_mapSet_eq {α : Type} (m : List (String × α))
    (k : String) (v : α) : GooseViz.mapGet (GooseViz.mapSet m k v) k = some v := by
  induction m with
  | nil => simp [GooseViz.mapSet, GooseViz.mapGet]
  | cons kv t ih =>
      obtain ⟨k', v'⟩ := kv
      by_cases hk : k' = k
      · simp [GooseViz.mapSet, GooseViz.mapGet, hk]
      · simp [GooseViz.mapSet, GooseViz.mapGet, hk, ih]

/-- **C10.**  Processing an inbound `message:cleared` event empties the
canonical message history and emits a single `cleared` domain event,
leaving the canonical agent and task collections unchanged. -/
theorem C10_messages_cleared (s : GooseViz.AdapterState) (now : ℕ) (fid : String) :
    (GooseViz.MCPAdapter.handleMessage s GooseViz.InboundMsg.messagesCleared
      now fid).1.messages = [] ∧
    (GooseViz.MCPAdapter.handleMessage s GooseViz.InboundMsg.messagesCleared
      now fid).1.agents = s.agents ∧
    (GooseViz.MCPAdapter.handleMessage s GooseViz.InboundMsg.messagesCleared
      now fid).1.tasks = s.tasks ∧
    (GooseViz.MCPAdapter.handleMessage s GooseViz.InboundMsg.messagesCleared
      now fid).2 =
      [(GooseViz.DomainEvent.messagesCleared now, { s with messages := [] })] :=
  ⟨rfl, rfl, rfl, rfl⟩

/-- **C1** (counterexample).  The claim says every canonical-state
mutation of an inbound event completes before the first domain event is
emitted — in particular a synchronous subscriber of any event of
`task:assigned` handling sees the assignee already `working`.  On
`c1State` (idle agent "a1", pending task "t1") the first emitted event of
`task:assigned` is `taskAssigned`, and the canonical state at that
emission still has agent "a1" in state `idle`, not `working`: the
assignee mutation happens only after the two task-level events are
emitted. -/
theorem C1_first_emission_sees_stale_agent :
    ((GooseViz.MCPAdapter.handleMessage GooseViz.c1State
        (GooseViz.InboundMsg.taskAssigned "t1" "a1") 100 "m").2.head?).map
      (fun p => (p.1, (GooseViz.mapGet p.2.agents "a1").map GooseViz.Agent.state)) =
      some (GooseViz.DomainEvent.taskAssigned "t1" "a1" 100,
        some GooseViz.MAgentState.idle) ∧
    GooseViz.MAgentState.idle ≠ GooseViz.MAgentState.working := by
  exact ⟨rfl, by decide⟩

/-- **C1** (amended).  During `task:assigned` handling, the task mutation
(state `assigned`, assignee recorded) is complete at every emission, but
the assignee agent's transition to `working` completes only after the two
task-level events: it is visible exactly at the agent-level emissions
(`agent:stateChanged` / `agent:updated`), so a subscriber of the
task-level events may still observe the agent's previous state. -/
theorem C1_taskAssigned_order_amended (s : GooseViz.AdapterState)
    (tid aid : String) (now : ℕ) (fid : String) :
    ∀ p ∈ (GooseViz.MCPAdapter.handleMessage s
        (GooseViz.InboundMsg.taskAssigned tid aid) now fid).2,
      (∃ t, GooseViz.mapGet p.2.tasks tid = some t ∧
        t.state = GooseViz.MTaskState.assigned ∧ t.assignedTo = some aid) ∧
      (p.1.isAgentStateEvent = true →
        ∃ a, GooseViz.mapGet p.2.agents aid = some a ∧
          a.state = GooseViz.MAgentState.working) := by
  intro p hp
  cases htask : GooseViz.mapGet s.tasks tid with
  | none =>
      simp [GooseViz.MCPAdapter.handleMessage,
        GooseViz.MCPAdapter.handleTaskAssigned, htask] at hp
  | some task =>
      cases hag : GooseViz.mapGet s.agents aid with
      | none =>
          simp only [GooseViz.MCPAdapter.handleMessage,
            GooseViz.MCPAdapter.handleTaskAssigned, htask, hag] at hp
          simp at hp
          rcases hp with hp | hp <;> subst hp
          · exact ⟨⟨_, GooseViz.mapGet_mapSet_eq _ _ _, rfl, rfl⟩,
              by intro h; simp [GooseViz.DomainEvent.isAgentStateEvent] at h⟩
          · exact ⟨⟨_, GooseViz.mapGet_mapSet_eq _ _ _, rfl, rfl⟩,
              by intro h; simp [GooseViz.DomainEvent.isAgentStateEvent] at h⟩
      | some agent =>
          simp only [GooseViz.MCPAdapter.handleMessage,
            GooseViz.MCPAdapter.handleTaskAssigned, htask, hag] at hp
          simp at hp
          rcases hp with hp | hp | hp | hp <;> subst hp
          · exact ⟨⟨_, GooseViz.mapGet_mapSet_eq _ _ _, rfl, rfl⟩,
              by intro h; simp [GooseViz.DomainEvent.isAgentStateEvent] at h⟩
          · exact ⟨⟨_, GooseViz.mapGet_mapSet_eq _ _ _, rfl, rfl⟩,
              by intro h; simp [GooseViz.DomainEvent.isAgentStateEvent] at h⟩
          · exact ⟨⟨_, GooseViz.mapGet_mapSet_eq _ _ _, rfl, rfl⟩,
              fun _ => ⟨_, GooseViz.mapGet_mapSet_eq _ _ _, rfl⟩⟩
          · exact ⟨⟨_, GooseViz.mapGet_mapSet_eq _ _ _, rfl, rfl⟩,
              fun _ => ⟨_, GooseViz.mapGet_mapSet_eq _ _ _, rfl⟩⟩

/-- Witness for the amended C1 at the concrete `agent:stateChanged`
emission of `c1State`. -/
theorem C1_taskAssigned_order_amended_witness :
    GooseViz.c1AgentPair ∈ (GooseViz.MCPAdapter.handleMessage GooseViz.c1State
      (GooseViz.InboundMsg.taskAssigned "t1" "a1") 100 "m").2 ∧
    ((∃ t, GooseViz.mapGet GooseViz.c1AgentPair.2.tasks "t1" = some t ∧
        t.state = GooseViz.MTaskState.assigned ∧ t.assignedTo = some "a1") ∧
      (GooseViz.c1AgentPair.1.isAgentStateEvent = true →
        ∃ a, GooseViz.mapGet GooseViz.c1AgentPair.2.agents "a1" = some a ∧
          a.state = GooseViz.MAgentState.working)) :=
  ⟨by decide,
    C1_taskAssigned_order_amended GooseViz.c1State "t1" "a1" 100 "m"
      GooseViz.c1AgentPair (by decide)⟩

/-- **C2** (counterexample).  The claim says an inbound `agent:moved` is
always emitted verbatim even when the referenced agent is absent from
canonical state.  On the empty state the handler is a complete no-op: no
state change and, in particular, no `agent:moved` event is forwarded. -/
theorem C2_absent_agent_moved_not_forwarded :
    GooseViz.mapGet GooseViz.emptyState.agents "a1" = none ∧
    GooseViz.MCPAdapter.handleMessage GooseViz.emptyState
      (GooseViz.InboundMsg.agentMoved "a1" GooseViz.pos0) 7 "m" =
      (GooseViz.emptyState, []) :=
  ⟨rfl, rfl⟩

/-- **C2** (amended).  An inbound `agent:moved` is forwarded — preceded
by an `agent:updated` — only when the referenced agent exists, exactly
like `task:moved` for tasks; when the agent exists its last-known
position (and `lastActive`) is updated without altering its lifecycle
state; when it is absent nothing is updated and nothing is emitted. -/
theorem C2_moved_events_amended (s : GooseViz.AdapterState) (aid tid : String)
    (p : GooseViz.MPosition) (now : ℕ) (fid : String) :
    (GooseViz.mapGet s.agents aid = none →
      GooseViz.MCPAdapter.handleMessage s
        (GooseViz.InboundMsg.agentMoved aid p) now fid = (s, [])) ∧
    (∀ a, GooseViz.mapGet s.agents aid = some a →
      (GooseViz.MCPAdapter.handleMessage s
        (GooseViz.InboundMsg.agentMoved aid p) now fid).1.agents =
        GooseViz.mapSet s.agents aid
          { a with position := some p, lastActive := now } ∧
      ({ a with position := some p, lastActive := now } : GooseViz.Agent).state
        = a.state ∧
      (GooseViz.MCPAdapter.handleMessage s
        (GooseViz.InboundMsg.agentMoved aid p) now fid).2.map Prod.fst =
        [GooseViz.DomainEvent.agentUpdated
          { a with position := some p, lastActive := now } now,
         GooseViz.DomainEvent.agentMoved aid p now]) ∧
    (GooseViz.mapGet s.tasks tid = none →
      GooseViz.MCPAdapter.handleMessage s
        (GooseViz.InboundMsg.taskMoved tid p) now fid = (s, [])) ∧
    (∀ t, GooseViz.mapGet s.tasks tid = some t →
      (GooseViz.MCPAdapter.handleMessage s
        (GooseViz.InboundMsg.taskMoved tid p) now fid).2.map Prod.fst =
        [GooseViz.DomainEvent.taskUpdated t now,
         GooseViz.DomainEvent.taskMoved tid p now]) := by
  refine ⟨?_, ?_, ?_, ?_⟩
  · intro h
    simp [GooseViz.MCPAdapter.handleMessage, GooseViz.MCPAdapter.handleAgentMoved, h]
  · intro a h
    simp [GooseViz.MCPAdapter.handleMessage, GooseViz.MCPAdapter.handleAgentMoved, h]
  · intro h
    simp [GooseViz.MCPAdapter.handleMessage, GooseViz.MCPAdapter.handleTaskMoved, h]
  · intro t h
    simp [GooseViz.MCPAdapter.handleMessage, GooseViz.MCPAdapter.handleTaskMoved, h]

/-- Witness for the amended C2: agent "a1" and task "t1" present in
`c1State`, agent absent in the empty state. -/
theorem C2_moved_events_amended_witness :
    (GooseViz.mapGet GooseViz.c1State.agents "a1" = some GooseViz.idleAgent ∧
      (GooseViz.MCPAdapter.handleMessage GooseViz.c1State
        (GooseViz.InboundMsg.agentMoved "a1" GooseViz.pos0) 7 "m").1.agents =
        GooseViz.mapSet GooseViz.c1State.agents "a1"
          { GooseViz.idleAgent with position := some GooseViz.pos0, lastActive := 7 } ∧
      ({ GooseViz.idleAgent with position := some GooseViz.pos0, lastActive := 7 }
        : GooseViz.Agent).state = GooseViz.idleAgent.state ∧
      (GooseViz.MCPAdapter.handleMessage GooseViz.c1State
        (GooseViz.InboundMsg.agentMoved "a1" GooseViz.pos0) 7 "m").2.map Prod.fst =
        [GooseViz.DomainEvent.agentUpdated
          { GooseViz.idleAgent with position := some GooseViz.pos0, lastActive := 7 } 7,
         GooseViz.DomainEvent.agentMoved "a1" GooseViz.pos0 7]) ∧
    (GooseViz.mapGet GooseViz.c1State.tasks "t1" = some GooseViz.pendingTask ∧
      (GooseViz.MCPAdapter.handleMessage GooseViz.c1State
        (GooseViz.InboundMsg.taskMoved "t1" GooseViz.pos0) 7 "m").2.map Prod.fst =
        [GooseViz.DomainEvent.taskUpdated GooseViz.pendingTask 7,
         GooseViz.DomainEvent.taskMoved "t1" GooseViz.pos0 7]) ∧
    (GooseViz.mapGet GooseViz.emptyState.agents "a1" = none ∧
      GooseViz.MCPAdapter.handleMessage GooseViz.emptyState
        (GooseViz.InboundMsg.agentMoved "a1" GooseViz.pos0) 7 "m" =
        (GooseViz.emptyState, [])) := by
  refine ⟨⟨by with_unfolding_all rfl, ?_⟩, ⟨by with_unfolding_all rfl, ?_⟩,
    ⟨rfl, ?_⟩⟩
  · exact (C2_moved_events_amended GooseViz.c1State "a1" "t1" GooseViz.pos0
      7 "m").2.1 GooseViz.idleAgent (by with_unfolding_all rfl)
  · exact (C2_moved_events_amended GooseViz.c1State "a1" "t1" GooseViz.pos0
      7 "m").2.2.2 GooseViz.pendingTask (by with_unfolding_all rfl)
  · exact (C2_moved_events_amended GooseViz.emptyState "a1" "t1" GooseViz.pos0
      7 "m").1 rfl
